import Mathlib

/-!
# Liquid-tolerant touchpad: scheduler, wake timer, dispatcher and brightness actuator

A shallow embedding of `src/main.c`.  Machine integers are natural numbers
reduced explicitly (`% 256`, `% 65536`, `% 4294967296`) wherever the C code
stores into a `uint8_t`, `uint16_t` or `uint32_t`.  Calls into the sensing
middleware and the platform library are recorded in a call log; the values
those primitives return are inputs of the cycle.
-/

namespace Touchpad

/-! ## Constants of the source -/

def SINGLE_CLICK : Nat := 0x0001
def DOUBLE_CLICK : Nat := 0x0002
def SCROLL_RIGHT : Nat := 0x00020010
def SCROLL_LEFT : Nat := 0x00030010
def SCROLL_UP : Nat := 0x000010
def SCROLL_DOWN : Nat := 0x010010
def FLICK_UP : Nat := 0x00000080
def FLICK_DOWN : Nat := 0x010000080
def FLICK_RIGHT : Nat := 0x02000080
def FLICK_LEFT : Nat := 0x03000080
def TWO_FINGER_ZOOM_IN : Nat := 0x00000200
def TWO_FINGER_ZOOM_OUT : Nat := 0x00800200
def TWO_FINGER_CLICK : Nat := 0x00000008

def DELAY_MS : Nat := 5
def ILO_FREQUENCY_HZ : Nat := 40000

/-! ## Data model -/

/-- Widgets of the sensing configuration that `main` names. -/
inductive Widget
  | PROXIMITY0
  | TOUCHPAD0
  deriving DecidableEq, Repr

/-- Calls that leave `main.c`: sensing middleware, platform library, and the
three actuator functions as they are invoked from the dispatch switch. -/
inductive Call
  | WDT_ClearInterrupt
  | WDT_SetMatch (v : Nat)
  | IloStartMeasurement
  | IloCompensate (desired : Nat)
  | IloStopMeasurement
  | Delay (ms : Nat)
  | CpuEnterDeepSleep
  | IsBusy
  | ScanSlots (w : Widget)
  | ProcessWidget (w : Widget)
  | IsProximitySensorActive (w : Widget)
  | InitializeWidgetBaseline (w : Widget)
  | IncrementGestureTimestamp
  | DecodeWidgetGestures (w : Widget)
  | RunTuner
  | UART_PutString (msg : String)
  | UART_IsTxComplete
  | UART_Disable
  | UART_Enable
  | PWM_Disable
  | PWM_Enable
  | PWM_TriggerStart
  | GPIO_Inv
  | toggle_pwm
  | incr_brightness (inc : Nat)
  | decr_brightness (dec : Nat)
  deriving DecidableEq, Repr

/-- The variables of `main.c` (locals of `main` that live across loop
iterations, and the file-scope globals), the hardware registers the code reads
and writes, and the log of outgoing calls. -/
structure Sys where
  /-- `uint8_t proximity_state` -/
  proximity_state : Nat
  /-- `uint8_t soft_counter` -/
  soft_counter : Nat
  /-- `uint32_t gest` -/
  gest : Nat
  /-- `uint32_t lgest` -/
  lgest : Nat
  /-- `bool flag`, set by `wdt_isr` -/
  flag : Bool
  /-- `static uint32_t ilo_cycles` -/
  ilo_cycles : Nat
  /-- `static uint32_t ilo_compensated_counts` -/
  ilo_compensated_counts : Nat
  /-- `static uint32_t DESIRED_WDT_INTERVAL_MS` -/
  DESIRED_WDT_INTERVAL_MS : Nat
  /-- `uint16_t bright` -/
  bright : Nat
  /-- `uint8_t state` (the on/off flag of the LED) -/
  state : Nat
  /-- watchdog match register (16 bit) -/
  wdt_match : Nat
  /-- PWM compare0 register -/
  compare0 : Nat
  /-- PWM compare1 register -/
  compare1 : Nat
  /-- PWM period0 register (the maximum duty) -/
  period0 : Nat
  /-- PWM block enabled -/
  pwm_enabled : Bool
  /-- UART block enabled -/
  uart_enabled : Bool
  /-- output value of the LED3 pin -/
  led3 : Bool
  /-- outgoing calls, oldest first -/
  log : List Call
  deriving DecidableEq, Repr

/-- Record an outgoing call. -/
def emit (c : Call) (s : Sys) : Sys :=
  { s with log := s.log ++ [c] }

/-- State at the entry of the `for (;;)` loop of `main`.  The PWM registers and
the watchdog match come from the generated device configuration, which is not
part of `main.c`; they are parameters. -/
def boot (period0 compare0 compare1 wdt_match : Nat) : Sys :=
  { proximity_state := 0
    soft_counter := 0
    gest := 0
    lgest := 0
    flag := false
    ilo_cycles := 0
    ilo_compensated_counts := 0
    DESIRED_WDT_INTERVAL_MS := 100000
    bright := 100
    state := 0
    wdt_match := wdt_match
    compare0 := compare0
    compare1 := compare1
    period0 := period0
    pwm_enabled := true
    uart_enabled := true
    led3 := false
    log := [] }

/-! ## Brightness actuator -/

/-- `void toggle_pwm()` -/
def toggle_pwm (s : Sys) : Sys :=
  let st : Nat := if s.state = 0 then 1 else 0
  if st ≠ 0 then
    { s with
      state := st
      compare0 := s.bright
      compare1 := (1000 + 4294967296 - s.bright) % 4294967296 }
  else
    { s with
      state := st
      compare0 := 0
      compare1 := 1000 }

/-- `void incr_brightness(uint16_t inc)` -/
def incr_brightness (inc : Nat) (s : Sys) : Sys :=
  let inc := inc % 65536
  if inc < 1000 then
    let inc := (inc + 1) % 65536
    let compare := s.compare0 % 65536
    let new_compare := (compare + inc) % 65536
    let new_compare := if new_compare > s.period0 then s.period0 % 65536 else new_compare
    { s with compare0 := new_compare }
  else
    s

/-- `void decr_brightness(uint16_t dec)` -/
def decr_brightness (dec : Nat) (s : Sys) : Sys :=
  let dec := dec % 65536
  let compare := s.compare0 % 65536
  let new_compare := if compare ≥ dec then compare - dec else 0
  { s with compare0 := new_compare }

/-- One brightness request: an increment or a decrement with its argument. -/
inductive BrightOp
  | incr (inc : Nat)
  | decr (dec : Nat)
  deriving DecidableEq, Repr

/-- Perform one brightness request. -/
def BrightOp.run : BrightOp → Sys → Sys
  | .incr n, s => incr_brightness n s
  | .decr n, s => decr_brightness n s

/-- Perform a sequence of brightness requests, first to last. -/
def run_bright (ops : List BrightOp) (s : Sys) : Sys :=
  ops.foldl (fun t op => op.run t) s

/-- Actuator states that `toggle_pwm`, `incr_brightness` and `decr_brightness`
can produce from `s0`. -/
inductive ActuatorReachable (s0 : Sys) : Sys → Prop
  | start : ActuatorReachable s0 s0
  | toggle {s : Sys} : ActuatorReachable s0 s → ActuatorReachable s0 (toggle_pwm s)
  | incr {s : Sys} (inc : Nat) : ActuatorReachable s0 s → ActuatorReachable s0 (incr_brightness inc s)
  | decr {s : Sys} (dec : Nat) : ActuatorReachable s0 s → ActuatorReachable s0 (decr_brightness dec s)

/-! ## Wake timer -/

/-- What the environment supplies to one iteration of the main loop: the
results of the platform and middleware primitives the iteration reads. -/
structure CycleIn where
  /-- number of `Cy_SysClk_IloCompensate` polls in `wdt_trigger` that return a
  status other than success before the poll that succeeds -/
  ilo_retries : Nat
  /-- cycle count the successful `Cy_SysClk_IloCompensate` poll stores, as a
  function of the desired delay it is given -/
  ilo_counts : Nat → Nat
  /-- whether the watchdog interrupt is taken during the deep sleep that ends
  `wdt_trigger` -/
  wdt_irq : Bool
  /-- whether `Cy_CapSense_IsBusy` reports busy -/
  busy : Bool
  /-- return value of `Cy_CapSense_IsProximitySensorActive` -/
  prox : Nat
  /-- return value of `Cy_CapSense_DecodeWidgetGestures` -/
  decoded : Nat

/-- `void wdt_isr(void)` -/
def wdt_isr (s : Sys) : Sys :=
  { emit .WDT_ClearInterrupt s with flag := true }

/-- The loop `while (CY_SYSCLK_SUCCESS != Cy_SysClk_IloCompensate(...));` of
`wdt_trigger`: `retries` polls that do not succeed, then the one that does. -/
def ilo_poll (desired : Nat) : Nat → Sys → Sys
  | 0, s => emit (.IloCompensate desired) s
  | n + 1, s => ilo_poll desired n (emit (.IloCompensate desired) s)

/-- `void wdt_trigger(void)`, up to and including the call that enters deep
sleep. -/
def wdt_trigger (retries : Nat) (counts : Nat → Nat) (s : Sys) : Sys :=
  let s : Sys :=
    if s.flag then
      let m := ((s.ilo_compensated_counts + s.wdt_match) % 4294967296) % 65536
      emit (.WDT_SetMatch m) { s with flag := false, wdt_match := m }
    else s
  let s : Sys := emit .IloStartMeasurement s
  let s : Sys := ilo_poll s.DESIRED_WDT_INTERVAL_MS retries s
  let s : Sys := { s with ilo_cycles := counts s.DESIRED_WDT_INTERVAL_MS % 4294967296 }
  let s : Sys := { s with ilo_compensated_counts := s.ilo_cycles % 4294967296 }
  let s : Sys := emit .IloStopMeasurement s
  let s : Sys := emit (.Delay DELAY_MS) s
  emit .CpuEnterDeepSleep s

/-! ## Gesture dispatcher and scan scheduler -/

/-- The `switch (gest)` statement of `main`. -/
def gesture_switch (s : Sys) : Sys :=
  if s.gest = SINGLE_CLICK then
    toggle_pwm (emit .toggle_pwm (emit (.UART_PutString "Single Click \r\n") s))
  else if s.gest = DOUBLE_CLICK then
    toggle_pwm (emit .toggle_pwm (emit (.UART_PutString "Double Click \r\n") s))
  else if s.gest = SCROLL_DOWN then
    decr_brightness s.bright (emit (.decr_brightness s.bright) (emit (.UART_PutString "Scroll Down \r\n") s))
  else if s.gest = SCROLL_UP then
    incr_brightness s.bright (emit (.incr_brightness s.bright) (emit (.UART_PutString "Scroll up \r\n") s))
  else if s.gest = SCROLL_RIGHT then
    incr_brightness s.bright (emit (.incr_brightness s.bright) (emit (.UART_PutString "Scroll right \r\n") s))
  else if s.gest = SCROLL_LEFT then
    decr_brightness s.bright (emit (.decr_brightness s.bright) (emit (.UART_PutString "Scroll left \r\n") s))
  else if s.gest = FLICK_UP then
    incr_brightness s.bright (emit (.incr_brightness s.bright) (emit (.UART_PutString "flick up \r\n") s))
  else if s.gest = FLICK_DOWN then
    decr_brightness s.bright (emit (.decr_brightness s.bright) (emit (.UART_PutString "flick down \r\n") s))
  else if s.gest = FLICK_RIGHT then
    incr_brightness s.bright (emit (.incr_brightness s.bright) (emit (.UART_PutString "flick right \r\n") s))
  else if s.gest = FLICK_LEFT then
    decr_brightness s.bright (emit (.decr_brightness s.bright) (emit (.UART_PutString "flick left \r\n") s))
  else if s.gest = TWO_FINGER_CLICK then
    { emit .GPIO_Inv (emit (.UART_PutString "Two Finger Click \r\n") s) with led3 := !s.led3 }
  else if s.gest = TWO_FINGER_ZOOM_OUT then
    decr_brightness s.bright (emit (.decr_brightness s.bright) (emit (.UART_PutString "Two Finger Zoom OUT \r\n") s))
  else if s.gest = TWO_FINGER_ZOOM_IN then
    incr_brightness s.bright (emit (.incr_brightness s.bright) (emit (.UART_PutString "Two Finger Zoom In \r\n") s))
  else
    emit (.UART_PutString "\r\n") (emit (.UART_PutString (String.mk (Nat.toDigits 16 s.gest))) s)

/-- The body of `if(proximity_state)` in `main`: touchpad scan, gesture decode,
dispatch, inactivity counting. -/
def active_branch (i : CycleIn) (s : Sys) : Sys :=
  let s : Sys := { s with DESIRED_WDT_INTERVAL_MS := 10000 }
  let s : Sys := emit (.InitializeWidgetBaseline .PROXIMITY0) s
  let s : Sys := emit (.ScanSlots .TOUCHPAD0) s
  let s : Sys := emit .IncrementGestureTimestamp s
  let s : Sys := emit (.ProcessWidget .TOUCHPAD0) s
  let s : Sys := { emit (.DecodeWidgetGestures .TOUCHPAD0) s with gest := i.decoded % 4294967296 }
  let s : Sys :=
    if s.gest ≠ s.lgest then
      let s : Sys := if s.gest > 0 then gesture_switch s else s
      { s with soft_counter := 0, lgest := s.gest }
    else s
  let s : Sys := if s.gest = 0 then { s with soft_counter := (s.soft_counter + 1) % 256 } else s
  if s.soft_counter > 100 then
    { s with DESIRED_WDT_INTERVAL_MS := 100000, soft_counter := 0, proximity_state := 0 }
  else s

/-- The statement `if (CY_CAPSENSE_NOT_BUSY == Cy_CapSense_IsBusy(...)) ...`
of the main loop. -/
def loop_body (i : CycleIn) (s : Sys) : Sys :=
  let s : Sys := emit .IsBusy s
  if i.busy then s
  else
    let s : Sys :=
      if s.proximity_state = 0 then
        let s : Sys := emit (.ScanSlots .PROXIMITY0) s
        let s : Sys := emit (.ProcessWidget .PROXIMITY0) s
        { emit (.IsProximitySensorActive .PROXIMITY0) s with proximity_state := i.prox % 256 }
      else s
    let s : Sys := if s.proximity_state ≠ 0 then active_branch i s else s
    emit .RunTuner s

/-- One iteration of `for (;;)` in `main`: `wdt_trigger`, the watchdog
interrupt if it is taken during the sleep, then the scan statement. -/
def main_cycle (s : Sys) (i : CycleIn) : Sys :=
  let s : Sys := wdt_trigger i.ilo_retries i.ilo_counts s
  let s : Sys := if i.wdt_irq then wdt_isr s else s
  loop_body i s

/-- Iterations of the main loop over a list of inputs, first to last. -/
def run_cycles (s : Sys) : List CycleIn → Sys
  | [] => s
  | i :: is => run_cycles (main_cycle s i) is

/-- `int main(void)`, after its set-up code: the first `is.length` iterations
of the endless loop, from the loop-entry state. -/
def main (period0 compare0 compare1 wdt_match : Nat) (is : List CycleIn) : Sys :=
  run_cycles (boot period0 compare0 compare1 wdt_match) is

/-- States at the end of some iteration of the main loop (or at its entry),
starting from `s0`. -/
inductive Reachable (s0 : Sys) : Sys → Prop
  | start : Reachable s0 s0
  | cycle {s : Sys} (i : CycleIn) : Reachable s0 s → Reachable s0 (main_cycle s i)

/-! ## Deep sleep callback -/

/-- `cy_en_syspm_callback_mode_t` -/
inductive SyspmMode
  | CHECK_READY
  | CHECK_FAIL
  | BEFORE_TRANSITION
  | AFTER_TRANSITION
  | OTHER
  deriving DecidableEq, Repr

/-- `cy_en_syspm_status_t`, the two values the callback uses. -/
inductive SyspmStatus
  | SUCCESS
  | FAIL
  deriving DecidableEq, Repr

/-- The loop `while(Cy_SCB_UART_IsTxComplete(scb_1_HW) == 0U)` of the
callback: `pending` polls that read "not complete", then the one that reads
"complete". -/
def tx_wait : Nat → Sys → Sys
  | 0, s => emit .UART_IsTxComplete s
  | n + 1, s => tx_wait n (emit .UART_IsTxComplete s)

/-- `cy_en_syspm_status_t deep_sleep_callback(callbackParams, mode)`;
`tx_pending` is the number of `Cy_SCB_UART_IsTxComplete` polls that still read
0 when the callback is entered. -/
def deep_sleep_callback (tx_pending : Nat) (mode : SyspmMode) (s : Sys) : SyspmStatus × Sys :=
  -- `ret_val` is initialised to `CY_SYSPM_FAIL`; every branch of the switch overwrites it
  match mode with
  | .CHECK_READY =>
    let s : Sys := tx_wait tx_pending s
    let s : Sys := { emit .UART_Disable s with uart_enabled := false }
    let ret_val := SyspmStatus.SUCCESS
    (ret_val, s)
  | .CHECK_FAIL =>
    let s : Sys := { emit .UART_Enable s with uart_enabled := true }
    let ret_val := SyspmStatus.SUCCESS
    (ret_val, s)
  | .BEFORE_TRANSITION =>
    let s : Sys := { emit .PWM_Disable s with pwm_enabled := false }
    let ret_val := SyspmStatus.SUCCESS
    (ret_val, s)
  | .AFTER_TRANSITION =>
    let s : Sys := { emit .PWM_Enable s with pwm_enabled := true }
    let s : Sys := emit .PWM_TriggerStart s
    let s : Sys := { emit .UART_Enable s with uart_enabled := true }
    let ret_val := SyspmStatus.SUCCESS
    (ret_val, s)
  | .OTHER =>
    let ret_val := SyspmStatus.SUCCESS
    (ret_val, s)

/-! ## Observations used to state the properties -/

/-- Calls of the dispatch switch that act on the actuator or on the LED3 pin. -/
def is_action : Call → Bool
  | .toggle_pwm => true
  | .incr_brightness _ => true
  | .decr_brightness _ => true
  | .GPIO_Inv => true
  | _ => false

/-- The actuator calls among a list of calls, in order. -/
def actions (cs : List Call) : List Call :=
  cs.filter is_action

/-- The calls one main-loop iteration issues from state `s` on input `i`. -/
def cycle_calls (s : Sys) (i : CycleIn) : List Call :=
  (main_cycle { s with log := [] } i).log

/-- Whether the iteration from `s` on input `i` executes the body of
`if(proximity_state)`: the middleware is not busy, and the state is Active
already or the proximity scan of this iteration stores a non-zero value. -/
def runs_active (s : Sys) (i : CycleIn) : Bool :=
  !i.busy && (s.proximity_state != 0 || i.prox % 256 != 0)

/-- Every iteration of the run executes the body of `if(proximity_state)`. -/
def all_active : Sys → List CycleIn → Bool
  | _, [] => true
  | s, i :: is => runs_active s i && all_active (main_cycle s i) is

/-- The actuator calls of each iteration of a run, one list per iteration. -/
def run_actions : Sys → List CycleIn → List (List Call)
  | _, [] => []
  | s, i :: is => actions (cycle_calls s i) :: run_actions (main_cycle s i) is

/-- The actuator calls the dispatch switch issues for gesture code `g` when
the global `bright` holds `b`. -/
def switch_actions (b g : Nat) : List Call :=
  actions (gesture_switch { boot 0 0 0 0 with gest := g, bright := b }).log

/-- De-duplication law, spec side: walking a sequence of decoded codes with
`prev` the code of the cycle before, a cycle fires the action of its code
exactly when the code is non-zero and differs from `prev`, that is, in the
first cycle of a maximal run of one non-zero code. -/
def dedup_expected (b : Nat) : Nat → List Nat → List (List Call)
  | _, [] => []
  | prev, g :: gs =>
    (if g ≠ 0 ∧ g ≠ prev then switch_actions b g else []) :: dedup_expected b g gs

/-- The thirteen codes that have a `case` label in the dispatch switch. -/
def table_codes : List Nat :=
  [SINGLE_CLICK, DOUBLE_CLICK, SCROLL_DOWN, SCROLL_UP, SCROLL_RIGHT, SCROLL_LEFT,
   FLICK_UP, FLICK_DOWN, FLICK_RIGHT, FLICK_LEFT, TWO_FINGER_CLICK, TWO_FINGER_ZOOM_OUT,
   TWO_FINGER_ZOOM_IN]

/-- Cycle counts of an oscillator that runs exactly at `ILO_FREQUENCY_HZ`, for
a delay given in microseconds. -/
def ilo_nominal (desired : Nat) : Nat :=
  desired * ILO_FREQUENCY_HZ / 1000000

/-- A cycle input with an exact oscillator, no compensation retry, and the
given interrupt, busy, proximity and gesture readings. -/
def cycle_in (wdt_irq busy : Bool) (prox decoded : Nat) : CycleIn :=
  { ilo_retries := 0
    ilo_counts := ilo_nominal
    wdt_irq := wdt_irq
    busy := busy
    prox := prox
    decoded := decoded }

/-- Whether a call programs the watchdog match register. -/
def is_set_match : Call → Bool
  | .WDT_SetMatch _ => true
  | _ => false

/-! ## Intermediate states of the Active branch, named for the proofs -/

/-- The state of a non-busy iteration after the proximity check: in Idle the
proximity widget is scanned and processed and `proximity_state` is assigned
the (8-bit) sensor status; in Active nothing but the busy query happens. -/
def probed (i : CycleIn) (s : Sys) : Sys :=
  if s.proximity_state = 0 then
    { s with
      proximity_state := i.prox % 256
      log := s.log ++ [Call.IsBusy, Call.ScanSlots .PROXIMITY0, Call.ProcessWidget .PROXIMITY0,
        Call.IsProximitySensorActive .PROXIMITY0] }
  else emit .IsBusy s

/-- The state of the Active branch right after the decode: wake interval set
to the short value, the five middleware calls issued, `gest` assigned. -/
def scanned (i : CycleIn) (s : Sys) : Sys :=
  { s with
    DESIRED_WDT_INTERVAL_MS := 10000
    gest := i.decoded % 4294967296
    log := s.log ++ [Call.InitializeWidgetBaseline .PROXIMITY0, Call.ScanSlots .TOUCHPAD0,
      Call.IncrementGestureTimestamp, Call.ProcessWidget .TOUCHPAD0,
      Call.DecodeWidgetGestures .TOUCHPAD0] }

/-- The state after the dispatch switch has run, if it runs: it runs when the
decoded code differs from `lgest` and is not zero. -/
def dispatched (i : CycleIn) (s : Sys) : Sys :=
  if i.decoded % 4294967296 ≠ s.lgest ∧ i.decoded % 4294967296 ≠ 0 then
    gesture_switch (scanned i s)
  else scanned i s

/-- The inactivity counter after the dispatch and counting steps of the Active
branch, before the threshold test: `sc` is the counter at the start of the
cycle, `lg` the last gesture, `g` the code decoded in this cycle. -/
def counted (sc lg g : Nat) : Nat :=
  if g = 0 then ((if g ≠ lg then 0 else sc) + 1) % 256 else (if g ≠ lg then 0 else sc)

/-- The state in which the scan statement of an iteration starts: after
`wdt_trigger` and, if the watchdog interrupt is taken, `wdt_isr`. -/
def woken (s : Sys) (i : CycleIn) : Sys :=
  if i.wdt_irq then wdt_isr (wdt_trigger i.ilo_retries i.ilo_counts s)
  else wdt_trigger i.ilo_retries i.ilo_counts s

/-- The sensing-middleware calls of one iteration, in order: the busy query;
when not busy, the proximity scan, process and status query if the iteration
starts Idle, the five calls of the Active branch if it runs, and the tuner
call. -/
def capsense_trace (s : Sys) (i : CycleIn) : List Call :=
  if i.busy then [Call.IsBusy]
  else
    [Call.IsBusy] ++
      (if s.proximity_state = 0 then
        [Call.ScanSlots .PROXIMITY0, Call.ProcessWidget .PROXIMITY0,
         Call.IsProximitySensorActive .PROXIMITY0]
       else []) ++
      (if runs_active s i then
        [Call.InitializeWidgetBaseline .PROXIMITY0, Call.ScanSlots .TOUCHPAD0,
         Call.IncrementGestureTimestamp, Call.ProcessWidget .TOUCHPAD0,
         Call.DecodeWidgetGestures .TOUCHPAD0]
       else []) ++
      [Call.RunTuner]

/-! ## Further observations -/

/-- Calls into the sensing middleware. -/
def is_capsense_call : Call → Bool
  | .IsBusy => true
  | .ScanSlots _ => true
  | .ProcessWidget _ => true
  | .IsProximitySensorActive _ => true
  | .InitializeWidgetBaseline _ => true
  | .IncrementGestureTimestamp => true
  | .DecodeWidgetGestures _ => true
  | .RunTuner => true
  | _ => false

/-- Calls that re-initialise a widget baseline. -/
def is_baseline_call : Call → Bool
  | .InitializeWidgetBaseline _ => true
  | _ => false

/-- Calls of the three brightness functions. -/
def is_pwm_call : Call → Bool
  | .toggle_pwm => true
  | .incr_brightness _ => true
  | .decr_brightness _ => true
  | _ => false

/-- The calls of each iteration of a run, one list per iteration. -/
def run_calls : Sys → List CycleIn → List (List Call)
  | _, [] => []
  | s, i :: is => cycle_calls s i :: run_calls (main_cycle s i) is

/-- The four actuator effects the dispatch table of the specification names. -/
inductive TableAction
  | toggle
  | increase
  | decrease
  | nothing
  deriving DecidableEq, Repr

/-- Dispatch table, spec side: single and double click toggle; scroll up,
scroll right, flick up, flick right and two-finger zoom in increase; scroll
down, scroll left, flick down, flick left and two-finger zoom out decrease;
two-finger click and every other code have no actuator effect. -/
def table_action (g : Nat) : TableAction :=
  if g = SINGLE_CLICK ∨ g = DOUBLE_CLICK then .toggle
  else if g = SCROLL_UP ∨ g = SCROLL_RIGHT ∨ g = FLICK_UP ∨ g = FLICK_RIGHT ∨
      g = TWO_FINGER_ZOOM_IN then .increase
  else if g = SCROLL_DOWN ∨ g = SCROLL_LEFT ∨ g = FLICK_DOWN ∨ g = FLICK_LEFT ∨
      g = TWO_FINGER_ZOOM_OUT then .decrease
  else .nothing

/-- Dispatch table, spec side: the actuator state the table prescribes after
code `g`, with the step 100. -/
def table_effect (g : Nat) (s : Sys) : Sys :=
  match table_action g with
  | .toggle => toggle_pwm s
  | .increase => incr_brightness 100 s
  | .decrease => decr_brightness 100 s
  | .nothing => s

/-- Dispatch table, spec side: the brightness calls the table prescribes for
code `g`. -/
def table_calls (g : Nat) : List Call :=
  match table_action g with
  | .toggle => [Call.toggle_pwm]
  | .increase => [Call.incr_brightness 100]
  | .decrease => [Call.decr_brightness 100]
  | .nothing => []

/-- Actuator states that `toggle_pwm`, `decr_brightness`, and `incr_brightness`
called only while the on/off flag is on, can produce from `s0`. -/
inductive OnGuardedReachable (s0 : Sys) : Sys → Prop
  | start : OnGuardedReachable s0 s0
  | toggle {s : Sys} : OnGuardedReachable s0 s → OnGuardedReachable s0 (toggle_pwm s)
  | incr {s : Sys} (inc : Nat) : OnGuardedReachable s0 s → s.state ≠ 0 →
      OnGuardedReachable s0 (incr_brightness inc s)
  | decr {s : Sys} (dec : Nat) : OnGuardedReachable s0 s →
      OnGuardedReachable s0 (decr_brightness dec s)

/-! ## Brightness actuator: range, increment value, toggle pairs -/

theorem incr_brightness_period0 (inc : Nat) (s : Sys) :
    (incr_brightness inc s).period0 = s.period0 := by
  unfold incr_brightness
  dsimp only
  split <;> rfl

theorem decr_brightness_period0 (dec : Nat) (s : Sys) :
    (decr_brightness dec s).period0 = s.period0 := rfl

theorem incr_brightness_le (inc : Nat) (s : Sys) (h : s.compare0 ≤ s.period0) :
    (incr_brightness inc s).compare0 ≤ s.period0 := by
  unfold incr_brightness
  dsimp only
  split
  · dsimp only
    split
    · exact Nat.mod_le _ _
    · omega
  · exact h

theorem decr_brightness_le (dec : Nat) (s : Sys) (h : s.compare0 ≤ s.period0) :
    (decr_brightness dec s).compare0 ≤ s.period0 := by
  unfold decr_brightness
  dsimp only
  have := Nat.mod_le s.compare0 65536
  split <;> omega

/-- C4. If compare0 starts within `[0, period0]`, then after any finite
sequence of `incr_brightness` and `decr_brightness` calls, with any arguments
(reduced to 16 bits on entry, all sums taken modulo 2^16), the period is
unchanged and compare0 is still within `[0, period0]`. -/
theorem brightness_range_invariant (ops : List BrightOp) (s : Sys)
    (h : s.compare0 ≤ s.period0) :
    (run_bright ops s).period0 = s.period0 ∧
      0 ≤ (run_bright ops s).compare0 ∧ (run_bright ops s).compare0 ≤ s.period0 := by
  induction ops generalizing s with
  | nil => exact ⟨rfl, Nat.zero_le _, h⟩
  | cons op ops ih =>
    have hp : (op.run s).period0 = s.period0 := by
      cases op
      · exact incr_brightness_period0 _ s
      · exact decr_brightness_period0 _ s
    have hc : (op.run s).compare0 ≤ (op.run s).period0 := by
      rw [hp]
      cases op
      · exact incr_brightness_le _ s h
      · exact decr_brightness_le _ s h
    have := ih (op.run s) hc
    rw [hp] at this
    exact this

/-- C4, instance: from compare0 = 950 with period 1000, repeated increments at
the ceiling (one of them with the largest 16-bit argument), a decrement and a
further increment keep compare0 within the period. -/
theorem brightness_range_invariant_witness :
    (boot 1000 950 50 0).compare0 ≤ (boot 1000 950 50 0).period0 ∧
      (run_bright [.incr 100, .incr 100, .incr 65535, .decr 300, .incr 999]
        (boot 1000 950 50 0)).compare0 ≤ (boot 1000 950 50 0).period0 :=
  ⟨by decide,
    (brightness_range_invariant [.incr 100, .incr 100, .incr 65535, .decr 300, .incr 999]
      (boot 1000 950 50 0) (by decide)).2.2⟩

/-- C5 as stated fails: with period 65535, compare0 = 65000 and delta = 999 the
16-bit sum 66000 wraps to 464 before the clamp, so the code writes 464 where
`min (compare0 + delta + 1) period0` is 65535. -/
theorem incr_brightness_overflow_counterexample :
    (boot 65535 65000 535 0).period0 < 65536 ∧
      (boot 65535 65000 535 0).compare0 ≤ (boot 65535 65000 535 0).period0 ∧
      999 < 1000 ∧
      (incr_brightness 999 (boot 65535 65000 535 0)).compare0 = 464 ∧
      min ((boot 65535 65000 535 0).compare0 + 999 + 1) (boot 65535 65000 535 0).period0
        = 65535 := by
  decide

/-- C5, amended. For every period, every compare0 and every delta < 1000 such
that `compare0 + delta + 1` fits in 16 bits, `incr_brightness delta` changes
nothing but compare0 and writes `min (compare0 + delta + 1) period0`. -/
theorem incr_brightness_value (inc : Nat) (s : Sys)
    (hinc : inc < 1000) (hsum : s.compare0 + inc + 1 < 65536) :
    incr_brightness inc s = { s with compare0 := min (s.compare0 + inc + 1) s.period0 } := by
  unfold incr_brightness
  dsimp only
  have h1 : inc % 65536 = inc := Nat.mod_eq_of_lt (by omega)
  have h2 : (inc + 1) % 65536 = inc + 1 := Nat.mod_eq_of_lt (by omega)
  have h3 : s.compare0 % 65536 = s.compare0 := Nat.mod_eq_of_lt (by omega)
  have h4 : (s.compare0 + (inc + 1)) % 65536 = s.compare0 + inc + 1 := by
    rw [Nat.mod_eq_of_lt (by omega)]; omega
  rw [h1, if_pos hinc, h2, h3, h4]
  congr 1
  split
  · rename_i h
    rw [Nat.mod_eq_of_lt (by omega)]
    omega
  · omega

/-- C5, the scenario of the specification: delta = 100 from compare0 = 950
with period 1000 gives 1000, not 1051. -/
theorem incr_brightness_value_witness :
    100 < 1000 ∧ (boot 1000 950 50 0).compare0 + 100 + 1 < 65536 ∧
      (incr_brightness 100 (boot 1000 950 50 0)).compare0 = 1000 :=
  ⟨by decide, by decide, by
    rw [incr_brightness_value 100 (boot 1000 950 50 0) (by decide) (by decide)]
    decide⟩

theorem toggle_pwm_twice (s : Sys) :
    (toggle_pwm (toggle_pwm s)).state = (if s.state = 0 then 0 else 1) ∧
      (toggle_pwm (toggle_pwm s)).compare0 = (if s.state = 0 then 0 else s.bright) ∧
      (toggle_pwm (toggle_pwm s)).compare1 =
        (if s.state = 0 then 1000 else (1000 + 4294967296 - s.bright) % 4294967296) ∧
      toggle_pwm (toggle_pwm (toggle_pwm s)) = toggle_pwm s := by
  by_cases h : s.state = 0 <;> simp [toggle_pwm, h]

theorem actuator_reachable_inv (p c0 c1 m : Nat) (s : Sys)
    (h : ActuatorReachable (boot p c0 c1 m) s) : s.bright = 100 ∧ s.state ≤ 1 := by
  induction h with
  | start => exact ⟨rfl, Nat.zero_le 1⟩
  | toggle _ ih =>
    refine ⟨?_, ?_⟩
    · unfold toggle_pwm; dsimp only; split <;> exact ih.1
    · unfold toggle_pwm; dsimp only; split <;> simp
  | incr inc _ ih =>
    unfold incr_brightness; dsimp only; split <;> exact ih
  | decr dec _ ih => exact ih

/-- C6 as stated fails: from the loop-entry state (period 1000), one toggle
(on, compare0 = 100) and one `incr_brightness 100` reach compare0 = 201; two
further toggles leave compare0 = 100, not 201. -/
theorem toggle_pair_counterexample :
    ActuatorReachable (boot 1000 0 1000 0)
        (incr_brightness 100 (toggle_pwm (boot 1000 0 1000 0))) ∧
      (incr_brightness 100 (toggle_pwm (boot 1000 0 1000 0))).compare0 = 201 ∧
      (toggle_pwm (toggle_pwm
        (incr_brightness 100 (toggle_pwm (boot 1000 0 1000 0))))).compare0 = 100 :=
  ⟨.incr 100 (.toggle .start), by decide, by decide⟩

/-- C6, amended. In every actuator state reachable from the loop-entry state
by toggle, increment and decrement calls, two consecutive `toggle_pwm` calls
restore the on/off flag and leave the compare registers at the pair the flag
alone fixes: (100, 900) when on, (0, 1000) when off, whatever compare0 was
before; on a state that a `toggle_pwm` call has just produced they restore the
whole state. -/
theorem toggle_pair_law (p c0 c1 m : Nat) (s : Sys)
    (h : ActuatorReachable (boot p c0 c1 m) s) :
    (toggle_pwm (toggle_pwm s)).state = s.state ∧
      (toggle_pwm (toggle_pwm s)).compare0 = (if s.state = 0 then 0 else 100) ∧
      (toggle_pwm (toggle_pwm s)).compare1 = (if s.state = 0 then 1000 else 900) ∧
      toggle_pwm (toggle_pwm (toggle_pwm s)) = toggle_pwm s := by
  obtain ⟨hb, hs⟩ := actuator_reachable_inv p c0 c1 m s h
  obtain ⟨h1, h2, h3, h4⟩ := toggle_pwm_twice s
  refine ⟨?_, ?_, ?_, h4⟩
  · rw [h1]; split <;> omega
  · rw [h2, hb]
  · rw [h3, hb]

/-- C6, instance: in the state reached by toggle and `incr_brightness 100`
(on, compare0 = 201, compare1 = 900), two toggles give on, 100, 900. -/
theorem toggle_pair_law_witness :
    (toggle_pwm (toggle_pwm (incr_brightness 100 (toggle_pwm (boot 1000 0 1000 0))))).state = 1 ∧
      (toggle_pwm (toggle_pwm
        (incr_brightness 100 (toggle_pwm (boot 1000 0 1000 0))))).compare0 = 100 ∧
      (toggle_pwm (toggle_pwm
        (incr_brightness 100 (toggle_pwm (boot 1000 0 1000 0))))).compare1 = 900 := by
  have h := toggle_pair_law 1000 0 1000 0
    (incr_brightness 100 (toggle_pwm (boot 1000 0 1000 0))) (.incr 100 (.toggle .start))
  exact ⟨h.1.trans (by decide), h.2.1.trans (by decide), h.2.2.1.trans (by decide)⟩

/-! ## Deep sleep callback and wake timer -/

theorem tx_wait_eq (n : Nat) (s : Sys) :
    tx_wait n s = { s with log := s.log ++ List.replicate (n + 1) Call.UART_IsTxComplete } := by
  induction n generalizing s with
  | zero => rfl
  | succ n ih =>
    rw [tx_wait, ih]
    simp [emit, List.replicate_succ]

/-- C7 as stated fails: entered in `CHECK_READY` mode with one poll of the
transmitter still reading "not complete", the callback returns
`CY_SYSPM_SUCCESS`, not `CY_SYSPM_FAIL`, and has disabled the UART. -/
theorem sleep_not_ready_counterexample :
    (deep_sleep_callback 1 .CHECK_READY (boot 1000 0 1000 0)).1 = SyspmStatus.SUCCESS ∧
      (boot 1000 0 1000 0).uart_enabled = true ∧
      (deep_sleep_callback 1 .CHECK_READY (boot 1000 0 1000 0)).2.uart_enabled = false := by
  decide

/-- C7, amended. Entered in `CHECK_READY` mode while `n` polls of the
transmitter still read "not complete" (any `n`, so also `n ≥ 1`), the callback
polls `n + 1` times, then disables the UART and returns `CY_SYSPM_SUCCESS`; it
never returns `CY_SYSPM_FAIL`, and it changes nothing else: the PWM enable
state is unchanged and no PWM call is issued. -/
theorem sleep_check_ready_waits (n : Nat) (s : Sys) :
    deep_sleep_callback n .CHECK_READY s =
      (SyspmStatus.SUCCESS,
        { s with
          uart_enabled := false
          log := s.log ++ List.replicate (n + 1) Call.UART_IsTxComplete ++ [Call.UART_Disable] }) ∧
      (deep_sleep_callback n .CHECK_READY s).1 ≠ SyspmStatus.FAIL ∧
      (deep_sleep_callback n .CHECK_READY s).2.pwm_enabled = s.pwm_enabled := by
  have h : deep_sleep_callback n .CHECK_READY s =
      (SyspmStatus.SUCCESS,
        { s with
          uart_enabled := false
          log := s.log ++ List.replicate (n + 1) Call.UART_IsTxComplete ++ [Call.UART_Disable] }) := by
    simp [deep_sleep_callback, tx_wait_eq, emit]
  rw [h]
  exact ⟨rfl, by simp, rfl⟩

theorem ilo_poll_eq (d n : Nat) (s : Sys) :
    ilo_poll d n s = { s with log := s.log ++ List.replicate (n + 1) (Call.IloCompensate d) } := by
  induction n generalizing s with
  | zero => rfl
  | succ n ih =>
    rw [ilo_poll, ih]
    simp [emit, List.replicate_succ]

theorem next_match_eq (a b : Nat) : ((a + b) % 4294967296) % 65536 = (b + a) % 65536 := by
  omega

/-- What one call of `wdt_trigger` does to the state, field by field. -/
theorem wdt_trigger_eq (r : Nat) (c : Nat → Nat) (s : Sys) :
    wdt_trigger r c s =
      { s with
        flag := false
        wdt_match := if s.flag then (s.wdt_match + s.ilo_compensated_counts) % 65536 else s.wdt_match
        ilo_cycles := c s.DESIRED_WDT_INTERVAL_MS % 4294967296
        ilo_compensated_counts := c s.DESIRED_WDT_INTERVAL_MS % 4294967296
        log := s.log ++
          (if s.flag then [Call.WDT_SetMatch ((s.wdt_match + s.ilo_compensated_counts) % 65536)] else []) ++
          [Call.IloStartMeasurement] ++
          List.replicate (r + 1) (Call.IloCompensate s.DESIRED_WDT_INTERVAL_MS) ++
          [Call.IloStopMeasurement, Call.Delay 5, Call.CpuEnterDeepSleep] } := by
  unfold wdt_trigger
  simp only [ilo_poll_eq, next_match_eq]
  cases hf : s.flag <;> simp [emit, DELAY_MS, hf]

/-- C9. `wdt_trigger` programs the match register exactly when the flag set
by `wdt_isr` is pending: it then issues one `Cy_WDT_SetMatch` with
`(old match + ilo_compensated_counts) mod 2^16`, which becomes the match
value; with no wake pending it issues no `Cy_WDT_SetMatch` and the match is
unchanged.  The flag is false after the call either way, and `wdt_isr` sets
the flag and leaves the match register alone. -/
theorem match_stacking_rule (r : Nat) (c : Nat → Nat) (s : Sys) :
    (wdt_trigger r c s).wdt_match =
        (if s.flag then (s.wdt_match + s.ilo_compensated_counts) % 65536 else s.wdt_match) ∧
      (wdt_trigger r c s).flag = false ∧
      (wdt_trigger r c { s with log := [] }).log.filter is_set_match =
        (if s.flag then [Call.WDT_SetMatch ((s.wdt_match + s.ilo_compensated_counts) % 65536)]
         else []) ∧
      (wdt_isr s).flag = true ∧ (wdt_isr s).wdt_match = s.wdt_match := by
  rw [wdt_trigger_eq, wdt_trigger_eq]
  refine ⟨rfl, rfl, ?_, rfl, rfl⟩
  cases hf : s.flag <;> simp [List.filter_append, List.filter_replicate, is_set_match]

/-! ## Scan scheduler and gesture dispatcher -/

theorem toggle_pwm_frame (s : Sys) :
    (toggle_pwm s).proximity_state = s.proximity_state ∧ (toggle_pwm s).soft_counter = s.soft_counter ∧
    (toggle_pwm s).gest = s.gest ∧ (toggle_pwm s).lgest = s.lgest ∧ (toggle_pwm s).flag = s.flag ∧
    (toggle_pwm s).ilo_cycles = s.ilo_cycles ∧
    (toggle_pwm s).ilo_compensated_counts = s.ilo_compensated_counts ∧
    (toggle_pwm s).DESIRED_WDT_INTERVAL_MS = s.DESIRED_WDT_INTERVAL_MS ∧
    (toggle_pwm s).bright = s.bright ∧ (toggle_pwm s).wdt_match = s.wdt_match ∧
    (toggle_pwm s).period0 = s.period0 ∧ (toggle_pwm s).pwm_enabled = s.pwm_enabled ∧
    (toggle_pwm s).uart_enabled = s.uart_enabled ∧ (toggle_pwm s).led3 = s.led3 ∧
    (toggle_pwm s).log = s.log := by
  unfold toggle_pwm
  dsimp only
  split <;> simp

theorem incr_brightness_frame (n : Nat) (s : Sys) :
    (incr_brightness n s).proximity_state = s.proximity_state ∧
    (incr_brightness n s).soft_counter = s.soft_counter ∧
    (incr_brightness n s).gest = s.gest ∧ (incr_brightness n s).lgest = s.lgest ∧
    (incr_brightness n s).flag = s.flag ∧
    (incr_brightness n s).ilo_cycles = s.ilo_cycles ∧
    (incr_brightness n s).ilo_compensated_counts = s.ilo_compensated_counts ∧
    (incr_brightness n s).DESIRED_WDT_INTERVAL_MS = s.DESIRED_WDT_INTERVAL_MS ∧
    (incr_brightness n s).bright = s.bright ∧ (incr_brightness n s).wdt_match = s.wdt_match ∧
    (incr_brightness n s).period0 = s.period0 ∧ (incr_brightness n s).pwm_enabled = s.pwm_enabled ∧
    (incr_brightness n s).uart_enabled = s.uart_enabled ∧ (incr_brightness n s).led3 = s.led3 ∧
    (incr_brightness n s).log = s.log ∧ (incr_brightness n s).state = s.state ∧
    (incr_brightness n s).compare1 = s.compare1 := by
  unfold incr_brightness
  dsimp only
  split <;> simp

theorem decr_brightness_frame (n : Nat) (s : Sys) :
    (decr_brightness n s).proximity_state = s.proximity_state ∧
    (decr_brightness n s).soft_counter = s.soft_counter ∧
    (decr_brightness n s).gest = s.gest ∧ (decr_brightness n s).lgest = s.lgest ∧
    (decr_brightness n s).flag = s.flag ∧
    (decr_brightness n s).ilo_cycles = s.ilo_cycles ∧
    (decr_brightness n s).ilo_compensated_counts = s.ilo_compensated_counts ∧
    (decr_brightness n s).DESIRED_WDT_INTERVAL_MS = s.DESIRED_WDT_INTERVAL_MS ∧
    (decr_brightness n s).bright = s.bright ∧ (decr_brightness n s).wdt_match = s.wdt_match ∧
    (decr_brightness n s).period0 = s.period0 ∧ (decr_brightness n s).pwm_enabled = s.pwm_enabled ∧
    (decr_brightness n s).uart_enabled = s.uart_enabled ∧ (decr_brightness n s).led3 = s.led3 ∧
    (decr_brightness n s).log = s.log ∧ (decr_brightness n s).state = s.state ∧
    (decr_brightness n s).compare1 = s.compare1 := by
  unfold decr_brightness
  simp

/-- The dispatch switch writes only the actuator fields, the LED3 pin and the
log. -/
theorem gesture_switch_frame (s : Sys) :
    (gesture_switch s).proximity_state = s.proximity_state ∧
    (gesture_switch s).soft_counter = s.soft_counter ∧
    (gesture_switch s).gest = s.gest ∧ (gesture_switch s).lgest = s.lgest ∧
    (gesture_switch s).flag = s.flag ∧
    (gesture_switch s).ilo_cycles = s.ilo_cycles ∧
    (gesture_switch s).ilo_compensated_counts = s.ilo_compensated_counts ∧
    (gesture_switch s).DESIRED_WDT_INTERVAL_MS = s.DESIRED_WDT_INTERVAL_MS ∧
    (gesture_switch s).bright = s.bright ∧ (gesture_switch s).wdt_match = s.wdt_match ∧
    (gesture_switch s).period0 = s.period0 ∧ (gesture_switch s).pwm_enabled = s.pwm_enabled ∧
    (gesture_switch s).uart_enabled = s.uart_enabled := by
  unfold gesture_switch
  simp only [apply_ite Sys.proximity_state, apply_ite Sys.soft_counter, apply_ite Sys.gest,
    apply_ite Sys.lgest, apply_ite Sys.flag, apply_ite Sys.ilo_cycles,
    apply_ite Sys.ilo_compensated_counts, apply_ite Sys.DESIRED_WDT_INTERVAL_MS,
    apply_ite Sys.bright, apply_ite Sys.wdt_match, apply_ite Sys.period0,
    apply_ite Sys.pwm_enabled, apply_ite Sys.uart_enabled,
    toggle_pwm_frame, incr_brightness_frame, decr_brightness_frame, emit, ite_self, and_self]

theorem dispatched_frame (i : CycleIn) (s : Sys) :
    (dispatched i s).proximity_state = s.proximity_state ∧
    (dispatched i s).soft_counter = s.soft_counter ∧
    (dispatched i s).gest = i.decoded % 4294967296 ∧ (dispatched i s).lgest = s.lgest ∧
    (dispatched i s).flag = s.flag ∧
    (dispatched i s).ilo_cycles = s.ilo_cycles ∧
    (dispatched i s).ilo_compensated_counts = s.ilo_compensated_counts ∧
    (dispatched i s).DESIRED_WDT_INTERVAL_MS = 10000 ∧
    (dispatched i s).bright = s.bright ∧ (dispatched i s).wdt_match = s.wdt_match ∧
    (dispatched i s).period0 = s.period0 ∧ (dispatched i s).pwm_enabled = s.pwm_enabled ∧
    (dispatched i s).uart_enabled = s.uart_enabled := by
  unfold dispatched
  split
  · simp only [gesture_switch_frame, scanned, and_self]
  · simp only [scanned, and_self]

/-- The Active branch as the dispatch followed by the counter update. -/
theorem active_branch_eq (i : CycleIn) (s : Sys) :
    active_branch i s =
      (if counted s.soft_counter s.lgest (i.decoded % 4294967296) > 100 then
        { dispatched i s with
          lgest := i.decoded % 4294967296
          DESIRED_WDT_INTERVAL_MS := 100000
          soft_counter := 0
          proximity_state := 0 }
      else
        { dispatched i s with
          lgest := i.decoded % 4294967296
          soft_counter := counted s.soft_counter s.lgest (i.decoded % 4294967296) }) := by
  generalize hg : i.decoded % 4294967296 = g
  unfold active_branch counted dispatched scanned
  simp only [emit, hg, List.append_assoc, List.singleton_append, List.cons_append, List.nil_append]
  by_cases h1 : s.lgest = g
  · by_cases h2 : g = 0
    · subst h2
      simp [h1]
    · simp [h1, h2]
  · have h1' : ¬ g = s.lgest := fun h => h1 h.symm
    by_cases h2 : g = 0
    · subst h2
      simp [h1']
    · simp [h1', h2, Nat.pos_of_ne_zero h2, gesture_switch_frame]


theorem actions_append (a b : List Call) : actions (a ++ b) = actions a ++ actions b := by
  simp [actions]

theorem append_ite (l a b : List Call) (c : Prop) [Decidable c] :
    l ++ (if c then a else b) = if c then l ++ a else l ++ b := by
  split <;> rfl

/-- The actuator calls the dispatch switch adds to the log depend only on
`gest` and `bright`. -/
theorem gesture_switch_actions (t : Sys) :
    actions (gesture_switch t).log = actions t.log ++ switch_actions t.bright t.gest := by
  unfold switch_actions gesture_switch
  simp only [apply_ite Sys.log, apply_ite actions, append_ite, toggle_pwm_frame,
    incr_brightness_frame, decr_brightness_frame, emit, boot, actions_append,
    List.nil_append, List.append_assoc]

theorem dispatched_actions (i : CycleIn) (s : Sys) :
    actions (dispatched i s).log = actions s.log ++
      (if i.decoded % 4294967296 ≠ s.lgest ∧ i.decoded % 4294967296 ≠ 0 then
        switch_actions s.bright (i.decoded % 4294967296) else []) := by
  unfold dispatched
  split
  · rw [gesture_switch_actions]
    simp [scanned, actions_append, actions, is_action]
  · simp [scanned, actions_append, actions, is_action]


/-- The wake-timer part of an iteration leaves the scheduler variables and the
actuator calls alone; the flag afterwards tells whether the interrupt was
taken. -/
theorem wake_frame (s : Sys) (i : CycleIn) :
    ∃ t : Sys, main_cycle s i = loop_body i t ∧
      t.proximity_state = s.proximity_state ∧ t.soft_counter = s.soft_counter ∧
      t.gest = s.gest ∧ t.lgest = s.lgest ∧
      t.DESIRED_WDT_INTERVAL_MS = s.DESIRED_WDT_INTERVAL_MS ∧ t.bright = s.bright ∧
      actions t.log = actions s.log ∧
      t.flag = i.wdt_irq ∧
      t.wdt_match =
        (if s.flag then (s.wdt_match + s.ilo_compensated_counts) % 65536 else s.wdt_match) ∧
      t.ilo_compensated_counts = i.ilo_counts s.DESIRED_WDT_INTERVAL_MS % 4294967296 := by
  refine ⟨if i.wdt_irq then wdt_isr (wdt_trigger i.ilo_retries i.ilo_counts s)
    else wdt_trigger i.ilo_retries i.ilo_counts s, rfl, ?_⟩
  rw [wdt_trigger_eq]
  cases hq : i.wdt_irq <;> cases hf : s.flag <;>
    simp [wdt_isr, emit, actions, is_action, List.filter_append, List.filter_replicate]


theorem loop_body_busy (s : Sys) (i : CycleIn) (hb : i.busy = true) :
    loop_body i s = emit .IsBusy s := by
  simp [loop_body, hb]

theorem loop_body_not_busy (s : Sys) (i : CycleIn) (hb : i.busy = false) :
    loop_body i s =
      emit .RunTuner
        (if (probed i s).proximity_state ≠ 0 then active_branch i (probed i s)
         else probed i s) := by
  unfold loop_body probed
  by_cases hp : s.proximity_state = 0 <;> simp [hb, hp, emit]

theorem probed_frame (i : CycleIn) (s : Sys) :
    (probed i s).proximity_state =
      (if s.proximity_state = 0 then i.prox % 256 else s.proximity_state) ∧
    (probed i s).soft_counter = s.soft_counter ∧
    (probed i s).gest = s.gest ∧ (probed i s).lgest = s.lgest ∧
    (probed i s).flag = s.flag ∧
    (probed i s).ilo_compensated_counts = s.ilo_compensated_counts ∧
    (probed i s).DESIRED_WDT_INTERVAL_MS = s.DESIRED_WDT_INTERVAL_MS ∧
    (probed i s).bright = s.bright ∧ (probed i s).wdt_match = s.wdt_match ∧
    actions (probed i s).log = actions s.log := by
  unfold probed
  split <;> simp [emit, actions, is_action]

theorem loop_body_inactive (s : Sys) (i : CycleIn) (h : runs_active s i = false) :
    (loop_body i s).proximity_state = s.proximity_state ∧
    (loop_body i s).soft_counter = s.soft_counter ∧
    (loop_body i s).gest = s.gest ∧ (loop_body i s).lgest = s.lgest ∧
    (loop_body i s).DESIRED_WDT_INTERVAL_MS = s.DESIRED_WDT_INTERVAL_MS ∧
    (loop_body i s).bright = s.bright ∧
    actions (loop_body i s).log = actions s.log ∧
    (loop_body i s).flag = s.flag ∧ (loop_body i s).wdt_match = s.wdt_match ∧
    (loop_body i s).ilo_compensated_counts = s.ilo_compensated_counts := by
  unfold runs_active at h
  cases hb : i.busy
  · simp only [hb, Bool.not_false, Bool.true_and, Bool.or_eq_false_iff, bne_eq_false_iff_eq] at h
    obtain ⟨hp, hx⟩ := h
    have hq : (probed i s).proximity_state = 0 := by
      rw [(probed_frame i s).1, if_pos hp, hx]
    rw [loop_body_not_busy s i hb]
    obtain ⟨p1, p2, p3, p4, p5, p6, p7, p8, p9, p10⟩ := probed_frame i s
    simp only [hq, ne_eq, not_true_eq_false, if_false, emit, actions_append, p2, p3, p4, p5, p6,
      p7, p8, p9, p10, hp, true_and]
    simp [actions, is_action]
  · rw [loop_body_busy s i hb]
    simp [emit, actions, is_action]

theorem loop_body_active (s : Sys) (i : CycleIn) (h : runs_active s i = true) :
    (loop_body i s).proximity_state =
      (if counted s.soft_counter s.lgest (i.decoded % 4294967296) > 100 then 0
       else if s.proximity_state = 0 then i.prox % 256 else s.proximity_state) ∧
    (loop_body i s).soft_counter =
      (if counted s.soft_counter s.lgest (i.decoded % 4294967296) > 100 then 0
       else counted s.soft_counter s.lgest (i.decoded % 4294967296)) ∧
    (loop_body i s).gest = i.decoded % 4294967296 ∧
    (loop_body i s).lgest = i.decoded % 4294967296 ∧
    (loop_body i s).DESIRED_WDT_INTERVAL_MS =
      (if counted s.soft_counter s.lgest (i.decoded % 4294967296) > 100 then 100000
       else 10000) ∧
    (loop_body i s).bright = s.bright ∧
    actions (loop_body i s).log = actions s.log ++
      (if i.decoded % 4294967296 ≠ s.lgest ∧ i.decoded % 4294967296 ≠ 0 then
        switch_actions s.bright (i.decoded % 4294967296) else []) ∧
    (loop_body i s).flag = s.flag ∧ (loop_body i s).wdt_match = s.wdt_match ∧
    (loop_body i s).ilo_compensated_counts = s.ilo_compensated_counts := by
  unfold runs_active at h
  cases hb : i.busy
  · simp only [hb, Bool.not_false, Bool.true_and, Bool.or_eq_true, bne_iff_ne, ne_eq] at h
    have hq : (probed i s).proximity_state ≠ 0 := by
      rw [(probed_frame i s).1]
      split
      · rename_i hp
        rcases h with h | h
        · exact absurd hp h
        · exact h
      · assumption
    rw [loop_body_not_busy s i hb, if_pos hq, active_branch_eq]
    obtain ⟨p1, p2, p3, p4, p5, p6, p7, p8, p9, p10⟩ := probed_frame i s
    obtain ⟨d1, d2, d3, d4, d5, d6, d7, d8, d9, d10, d11, d12, d13⟩ := dispatched_frame i (probed i s)
    have da := dispatched_actions i (probed i s)
    rw [p2, p4]
    split
    · simp only [emit, actions_append, d5, d7, d9, d10, da, p5, p6, p8, p9, p10, p2, p4, true_and]
      exact ⟨d3, by simp [actions, is_action], trivial⟩
    · simp only [emit, actions_append, d1, d5, d7, d8, d9, d10, da, p1, p5, p6, p8, p9, p10, p2, p4,
        true_and]
      exact ⟨d3, by simp [actions, is_action], trivial⟩
  · simp [hb] at h


/-- An iteration that does not run the Active branch leaves the scheduler
variables alone and issues no actuator call. -/
theorem main_cycle_inactive (s : Sys) (i : CycleIn) (h : runs_active s i = false) :
    (main_cycle s i).proximity_state = s.proximity_state ∧
    (main_cycle s i).soft_counter = s.soft_counter ∧
    (main_cycle s i).gest = s.gest ∧ (main_cycle s i).lgest = s.lgest ∧
    (main_cycle s i).DESIRED_WDT_INTERVAL_MS = s.DESIRED_WDT_INTERVAL_MS ∧
    (main_cycle s i).bright = s.bright ∧
    actions (main_cycle s i).log = actions s.log := by
  obtain ⟨t, ht, t1, t2, t3, t4, t5, t6, t7, -, -, -⟩ := wake_frame s i
  have h2 : runs_active t i = false := by
    simpa [runs_active, t1] using h
  obtain ⟨b1, b2, b3, b4, b5, b6, b7, -, -, -⟩ := loop_body_inactive t i h2
  rw [ht, b1, b2, b3, b4, b5, b6, b7, t1, t2, t3, t4, t5, t6, t7]
  simp

/-- The scheduler variables and the actuator calls of an iteration that runs
the Active branch. -/
theorem main_cycle_active (s : Sys) (i : CycleIn) (h : runs_active s i = true) :
    (main_cycle s i).proximity_state =
      (if counted s.soft_counter s.lgest (i.decoded % 4294967296) > 100 then 0
       else if s.proximity_state = 0 then i.prox % 256 else s.proximity_state) ∧
    (main_cycle s i).soft_counter =
      (if counted s.soft_counter s.lgest (i.decoded % 4294967296) > 100 then 0
       else counted s.soft_counter s.lgest (i.decoded % 4294967296)) ∧
    (main_cycle s i).gest = i.decoded % 4294967296 ∧
    (main_cycle s i).lgest = i.decoded % 4294967296 ∧
    (main_cycle s i).DESIRED_WDT_INTERVAL_MS =
      (if counted s.soft_counter s.lgest (i.decoded % 4294967296) > 100 then 100000
       else 10000) ∧
    (main_cycle s i).bright = s.bright ∧
    actions (main_cycle s i).log = actions s.log ++
      (if i.decoded % 4294967296 ≠ s.lgest ∧ i.decoded % 4294967296 ≠ 0 then
        switch_actions s.bright (i.decoded % 4294967296) else []) := by
  obtain ⟨t, ht, t1, t2, t3, t4, t5, t6, t7, -, -, -⟩ := wake_frame s i
  have h2 : runs_active t i = true := by
    simpa [runs_active, t1] using h
  obtain ⟨b1, b2, b3, b4, b5, b6, b7, -, -, -⟩ := loop_body_active t i h2
  rw [ht, b1, b2, b3, b4, b5, b6, b7, t1, t2, t4, t6, t7]
  simp

/-- The wake-timer variables after an iteration. -/
theorem main_cycle_wdt (s : Sys) (i : CycleIn) :
    (main_cycle s i).flag = i.wdt_irq ∧
    (main_cycle s i).wdt_match =
      (if s.flag then (s.wdt_match + s.ilo_compensated_counts) % 65536 else s.wdt_match) ∧
    (main_cycle s i).ilo_compensated_counts =
      i.ilo_counts s.DESIRED_WDT_INTERVAL_MS % 4294967296 := by
  obtain ⟨t, ht, -, -, -, -, -, -, -, t8, t9, t10⟩ := wake_frame s i
  cases h : runs_active t i
  · obtain ⟨-, -, -, -, -, -, -, b8, b9, b10⟩ := loop_body_inactive t i h
    rw [ht, b8, b9, b10, t8, t9, t10]
    simp
  · obtain ⟨-, -, -, -, -, -, -, b8, b9, b10⟩ := loop_body_active t i h
    rw [ht, b8, b9, b10, t8, t9, t10]
    simp

/-! ## De-duplication of dispatched gestures -/

theorem run_actions_eq (s : Sys) (is : List CycleIn) (hact : all_active s is = true) :
    run_actions s is =
      dedup_expected s.bright s.lgest (is.map (fun i => i.decoded % 4294967296)) := by
  induction is generalizing s with
  | nil => rfl
  | cons i is ih =>
    simp only [all_active, Bool.and_eq_true] at hact
    obtain ⟨ha, hrest⟩ := hact
    obtain ⟨-, -, -, m4, -, m6, -⟩ := main_cycle_active s i ha
    have hc : actions (cycle_calls s i) =
        (if i.decoded % 4294967296 ≠ 0 ∧ i.decoded % 4294967296 ≠ s.lgest then
          switch_actions s.bright (i.decoded % 4294967296) else []) := by
      have h' : runs_active { s with log := [] } i = true := ha
      have h2 : actions (main_cycle { s with log := [] } i).log = actions [] ++
          (if i.decoded % 4294967296 ≠ s.lgest ∧ i.decoded % 4294967296 ≠ 0 then
            switch_actions s.bright (i.decoded % 4294967296) else []) :=
        (main_cycle_active { s with log := [] } i h').2.2.2.2.2.2
      unfold cycle_calls
      rw [h2]
      simp only [actions, List.filter_nil, List.nil_append, and_comm]
    simp only [run_actions, List.map_cons, dedup_expected, hc, ih _ hrest, m4, m6]

theorem table_codes_one_action (b g : Nat) (hg : g ∈ table_codes) :
    (switch_actions b g).length = 1 := by
  simp only [table_codes, List.mem_cons, List.mem_singleton, List.not_mem_nil, or_false] at hg
  rcases hg with h | h | h | h | h | h | h | h | h | h | h | h | h <;> subst h <;>
    simp [switch_actions, gesture_switch, emit, boot, actions, is_action, toggle_pwm_frame,
      incr_brightness_frame, decr_brightness_frame, SINGLE_CLICK, DOUBLE_CLICK, SCROLL_RIGHT,
      SCROLL_LEFT, SCROLL_UP, SCROLL_DOWN, FLICK_UP, FLICK_DOWN, FLICK_RIGHT, FLICK_LEFT,
      TWO_FINGER_ZOOM_IN, TWO_FINGER_ZOOM_OUT, TWO_FINGER_CLICK]

/-- C1. Over any run of main-loop iterations that all execute the Active
branch (none busy), starting with `lgest = 0`, the actuator calls of each
iteration are those of the dispatch switch for the decoded code when that code
is non-zero and differs from the code of the iteration before (the first
iteration of a maximal run of one non-zero code), and none otherwise; each of
the thirteen table codes has exactly one actuator call in the switch. -/
theorem dedup_law (s : Sys) (is : List CycleIn)
    (h0 : s.lgest = 0) (hact : all_active s is = true) :
    run_actions s is =
        dedup_expected s.bright 0 (is.map (fun i => i.decoded % 4294967296)) ∧
      ∀ g ∈ table_codes, (switch_actions s.bright g).length = 1 := by
  refine ⟨?_, fun g hg => table_codes_one_action s.bright g hg⟩
  rw [run_actions_eq s is hact, h0]

/-- C1, the scenario of the specification: the decoded sequence
`[1, 1, 0, 1]` from the loop-entry state, with proximity active, invokes
`toggle_pwm` exactly twice, in iterations 1 and 4. -/
theorem dedup_law_witness :
    run_actions (boot 1000 0 1000 0)
        [cycle_in true false 1 1, cycle_in true false 1 1, cycle_in true false 1 0,
         cycle_in true false 1 1] =
      [[Call.toggle_pwm], [], [], [Call.toggle_pwm]] :=
  (dedup_law (boot 1000 0 1000 0)
    [cycle_in true false 1 1, cycle_in true false 1 1, cycle_in true false 1 0,
     cycle_in true false 1 1] rfl (by decide)).1.trans (by decide)

/-! ## Inactivity counter, power state and wake interval -/

theorem run_cycles_append (s : Sys) (a b : List CycleIn) :
    run_cycles s (a ++ b) = run_cycles (run_cycles s a) b := by
  induction a generalizing s with
  | nil => rfl
  | cons i a ih => exact ih (main_cycle s i)

/-- A run of non-busy zero-gesture iterations below the threshold only counts. -/
theorem zero_run_counts (s : Sys) (is : List CycleIn)
    (hA : s.proximity_state ≠ 0) (hl : s.lgest = 0 ∨ s.soft_counter = 0)
    (hz : ∀ i ∈ is, i.busy = false ∧ i.decoded % 4294967296 = 0)
    (hn : s.soft_counter + is.length ≤ 100) :
    (run_cycles s is).proximity_state = s.proximity_state ∧
      (run_cycles s is).soft_counter = s.soft_counter + is.length ∧
      ((run_cycles s is).lgest = 0 ∨ (run_cycles s is).soft_counter = 0) ∧
      (is ≠ [] → (run_cycles s is).DESIRED_WDT_INTERVAL_MS = 10000) := by
  induction is generalizing s with
  | nil => exact ⟨rfl, rfl, hl, fun h => absurd rfl h⟩
  | cons i is ih =>
    obtain ⟨hb, hg⟩ := hz i (List.mem_cons_self i is)
    have ha : runs_active s i = true := by simp [runs_active, hb, hA]
    obtain ⟨m1, m2, -, m4, m5, -, -⟩ := main_cycle_active s i ha
    simp only [List.length_cons] at hn
    have hc : counted s.soft_counter s.lgest (i.decoded % 4294967296) = s.soft_counter + 1 := by
      rw [hg]
      unfold counted
      rcases hl with hl | hl
      · simp [hl]; omega
      · simp [hl]
    rw [hc] at m1 m2 m5
    have hle : ¬ s.soft_counter + 1 > 100 := by omega
    rw [if_neg hle] at m1 m2 m5
    rw [if_neg hA] at m1
    have := ih (main_cycle s i) (by rw [m1]; exact hA) (Or.inl (by rw [m4, hg]))
      (fun j hj => hz j (List.mem_cons_of_mem i hj)) (by rw [m2]; omega)
    obtain ⟨r1, r2, r3, r4⟩ := this
    refine ⟨r1.trans m1, ?_, r3, fun _ => ?_⟩
    · show (run_cycles (main_cycle s i) is).soft_counter = _
      rw [r2, m2, List.length_cons]; omega
    · show (run_cycles (main_cycle s i) is).DESIRED_WDT_INTERVAL_MS = _
      cases is with
      | nil => exact m5
      | cons j js => exact r4 (by simp)

/-- C2. From an Active state with `soft_counter = 0`, over a run of non-busy
iterations that each decode gesture 0: after each of the first 100 the state
is still Active (and the counter equals the number of iterations run); after
the 101st the state is Idle, `soft_counter` is 0 and the desired wake interval
is 100000.  In particular one zero-gesture iteration does not end Active. -/
theorem inactivity_threshold (s : Sys) (is : List CycleIn)
    (hA : s.proximity_state ≠ 0) (h0 : s.soft_counter = 0)
    (hz : ∀ i ∈ is, i.busy = false ∧ i.decoded % 4294967296 = 0) :
    (is.length ≤ 100 →
        (run_cycles s is).proximity_state ≠ 0 ∧ (run_cycles s is).soft_counter = is.length) ∧
      (is.length = 101 →
        (run_cycles s is).proximity_state = 0 ∧ (run_cycles s is).soft_counter = 0 ∧
        (run_cycles s is).DESIRED_WDT_INTERVAL_MS = 100000) := by
  constructor
  · intro hn
    obtain ⟨r1, r2, -, -⟩ := zero_run_counts s is hA (Or.inr h0) hz (by omega)
    exact ⟨by rw [r1]; exact hA, by rw [r2, h0]; omega⟩
  · intro hn
    have hsplit : is = is.take 100 ++ is.drop 100 := (List.take_append_drop 100 is).symm
    have hlt : (is.take 100).length = 100 := by rw [List.length_take]; omega
    have hld : (is.drop 100).length = 1 := by rw [List.length_drop]; omega
    obtain ⟨r1, r2, r3, -⟩ := zero_run_counts s (is.take 100) hA (Or.inr h0)
      (fun j hj => hz j (List.mem_of_mem_take hj)) (by omega)
    rw [hlt, h0] at r2
    have hl : (run_cycles s (is.take 100)).lgest = 0 := by
      rcases r3 with h | h
      · exact h
      · omega
    obtain ⟨i, hi⟩ : ∃ i, is.drop 100 = [i] := by
      match hd : is.drop 100, hld with
      | [i], _ => exact ⟨i, rfl⟩
    obtain ⟨hb, hg⟩ := hz i (List.mem_of_mem_drop (by rw [hi]; exact List.mem_singleton_self i))
    rw [hsplit, run_cycles_append, hi]
    show (main_cycle (run_cycles s (is.take 100)) i).proximity_state = 0 ∧ _
    have hA' : (run_cycles s (is.take 100)).proximity_state ≠ 0 := by rw [r1]; exact hA
    have ha : runs_active (run_cycles s (is.take 100)) i = true := by
      simp [runs_active, hb, hA']
    obtain ⟨m1, m2, -, -, m5, -, -⟩ := main_cycle_active _ i ha
    have hc : counted (run_cycles s (is.take 100)).soft_counter
        (run_cycles s (is.take 100)).lgest (i.decoded % 4294967296) = 101 := by
      rw [hg, hl, r2]; decide
    rw [hc] at m1 m2 m5
    exact ⟨m1, m2, m5⟩


/-- C2, instance: after one Active iteration that decodes a single click, 100
zero-gesture iterations leave the state Active and the 101st makes it Idle
with the long interval. -/
theorem inactivity_threshold_witness :
    (run_cycles (main_cycle (boot 1000 0 1000 0) (cycle_in true false 1 1))
        (List.replicate 100 (cycle_in true false 0 0))).proximity_state ≠ 0 ∧
      (run_cycles (main_cycle (boot 1000 0 1000 0) (cycle_in true false 1 1))
        (List.replicate 101 (cycle_in true false 0 0))).proximity_state = 0 ∧
      (run_cycles (main_cycle (boot 1000 0 1000 0) (cycle_in true false 1 1))
        (List.replicate 101 (cycle_in true false 0 0))).DESIRED_WDT_INTERVAL_MS = 100000 :=
  ⟨((inactivity_threshold (main_cycle (boot 1000 0 1000 0) (cycle_in true false 1 1))
      (List.replicate 100 (cycle_in true false 0 0)) (by decide) (by decide)
      (fun i hi => by rw [List.eq_of_mem_replicate hi]; exact ⟨rfl, rfl⟩)).1
        (by simp)).1,
   ((inactivity_threshold (main_cycle (boot 1000 0 1000 0) (cycle_in true false 1 1))
      (List.replicate 101 (cycle_in true false 0 0)) (by decide) (by decide)
      (fun i hi => by rw [List.eq_of_mem_replicate hi]; exact ⟨rfl, rfl⟩)).2
        (by simp)).1,
   ((inactivity_threshold (main_cycle (boot 1000 0 1000 0) (cycle_in true false 1 1))
      (List.replicate 101 (cycle_in true false 0 0)) (by decide) (by decide)
      (fun i hi => by rw [List.eq_of_mem_replicate hi]; exact ⟨rfl, rfl⟩)).2
        (by simp)).2.2⟩

/-- The reachable states are the states `main` is in after finitely many
iterations. -/
theorem reachable_iff_main (p c0 c1 m : Nat) (s : Sys) :
    Reachable (boot p c0 c1 m) s ↔ ∃ is : List CycleIn, s = main p c0 c1 m is := by
  constructor
  · intro h
    induction h with
    | start => exact ⟨[], rfl⟩
    | @cycle t i _ ih =>
      obtain ⟨is, his⟩ := ih
      exact ⟨is ++ [i], by rw [main, run_cycles_append, ← main, ← his]; rfl⟩
  · rintro ⟨is, rfl⟩
    unfold main
    have key : ∀ (js : List CycleIn) (t : Sys), Reachable (boot p c0 c1 m) t →
        Reachable (boot p c0 c1 m) (run_cycles t js) := by
      intro js
      induction js with
      | nil => exact fun t ht => ht
      | cons j js ih => exact fun t ht => ih (main_cycle t j) (.cycle j ht)
    exact key is _ .start

/-- Invariants of the states at iteration boundaries: a non-zero last gesture
means a zero inactivity counter, the counter never exceeds the threshold, and
the power state and the desired wake interval correspond. -/
theorem reachable_inv (p c0 c1 m : Nat) (s : Sys) (h : Reachable (boot p c0 c1 m) s) :
    (s.lgest ≠ 0 → s.soft_counter = 0) ∧ s.soft_counter ≤ 100 ∧
      (s.proximity_state = 0 → s.DESIRED_WDT_INTERVAL_MS = 100000 ∧ s.soft_counter = 0) ∧
      (s.proximity_state ≠ 0 → s.DESIRED_WDT_INTERVAL_MS = 10000) := by
  induction h with
  | start => exact ⟨fun _ => rfl, Nat.zero_le _, fun _ => ⟨rfl, rfl⟩, fun h => absurd rfl h⟩
  | @cycle s i _ ih =>
    obtain ⟨i1, i2, i3, i4⟩ := ih
    cases ha : runs_active s i
    · obtain ⟨m1, m2, -, m4, m5, -, -⟩ := main_cycle_inactive s i ha
      rw [m1, m2, m4, m5]
      exact ⟨i1, i2, i3, i4⟩
    · obtain ⟨m1, m2, -, m4, m5, -, -⟩ := main_cycle_active s i ha
      have hp : (if s.proximity_state = 0 then i.prox % 256 else s.proximity_state) ≠ 0 := by
        simp only [runs_active, Bool.and_eq_true, Bool.or_eq_true, bne_iff_ne, ne_eq] at ha
        split
        · rename_i h0
          rcases ha.2 with h | h
          · exact absurd h0 h
          · exact h
        · assumption
      rw [m1, m2, m4, m5]
      by_cases hc : counted s.soft_counter s.lgest (i.decoded % 4294967296) > 100
      · rw [if_pos hc, if_pos hc, if_pos hc]
        exact ⟨fun _ => rfl, Nat.zero_le _, fun _ => ⟨rfl, rfl⟩, fun h => absurd rfl h⟩
      · rw [if_neg hc, if_neg hc, if_neg hc]
        refine ⟨fun hg => ?_, by omega, fun h => absurd h hp, fun _ => rfl⟩
        unfold counted
        rw [if_neg hg]
        split
        · rfl
        · rename_i hne
          have hl : s.lgest ≠ 0 := by
            intro h
            apply hg
            have : i.decoded % 4294967296 = s.lgest := by
              by_contra hx
              exact hne hx
            rw [this, h]
          exact i1 hl

/-- C3. In every iteration from a reachable state: `soft_counter` ends the
iteration larger than it started only if the iteration ran the Active branch
and decoded 0; and after an iteration that ran the Active branch and decoded a
non-zero code (new or repeated) `soft_counter` is 0. -/
theorem inactivity_counter_law (p c0 c1 m : Nat) (s : Sys)
    (hr : Reachable (boot p c0 c1 m) s) (i : CycleIn) :
    (s.soft_counter < (main_cycle s i).soft_counter →
        runs_active s i = true ∧ i.decoded % 4294967296 = 0) ∧
      (runs_active s i = true → i.decoded % 4294967296 ≠ 0 →
        (main_cycle s i).soft_counter = 0) := by
  obtain ⟨i1, -, -, -⟩ := reachable_inv p c0 c1 m s hr
  have key : runs_active s i = true → i.decoded % 4294967296 ≠ 0 →
      counted s.soft_counter s.lgest (i.decoded % 4294967296) = 0 := by
    intro _ hg
    unfold counted
    rw [if_neg hg]
    split
    · rfl
    · rename_i hne
      have hl : s.lgest ≠ 0 := by
        intro h
        apply hg
        have : i.decoded % 4294967296 = s.lgest := by
          by_contra hx
          exact hne hx
        rw [this, h]
      exact i1 hl
  constructor
  · intro hlt
    cases ha : runs_active s i
    · rw [(main_cycle_inactive s i ha).2.1] at hlt
      exact absurd hlt (Nat.lt_irrefl _)
    · refine ⟨rfl, ?_⟩
      by_contra hg
      rw [(main_cycle_active s i ha).2.1, key ha hg] at hlt
      simp at hlt
  · intro ha hg
    rw [(main_cycle_active s i ha).2.1, key ha hg]
    simp

/-- C3, instance: after a first Active iteration that decodes a single click,
an iteration that decodes the same code again ends with `soft_counter = 0`. -/
theorem inactivity_counter_law_witness :
    Reachable (boot 1000 0 1000 0) (main_cycle (boot 1000 0 1000 0) (cycle_in true false 1 1)) ∧
      (main_cycle (main_cycle (boot 1000 0 1000 0) (cycle_in true false 1 1))
        (cycle_in true false 0 1)).soft_counter = 0 :=
  ⟨.cycle _ .start,
    (inactivity_counter_law 1000 0 1000 0 _ (.cycle (cycle_in true false 1 1) .start)
      (cycle_in true false 0 1)).2 (by decide) (by decide)⟩

/-- C10. In every state at an iteration boundary reachable from the loop-entry
state, the desired wake interval is 100000 when the state is Idle and 10000
when it is Active; and a non-busy iteration that starts Idle and whose
proximity scan stores a non-zero status ends Active with the interval 10000. -/
theorem power_interval_correspondence (p c0 c1 m : Nat) (s : Sys)
    (hr : Reachable (boot p c0 c1 m) s) :
    (s.proximity_state = 0 → s.DESIRED_WDT_INTERVAL_MS = 100000) ∧
      (s.proximity_state ≠ 0 → s.DESIRED_WDT_INTERVAL_MS = 10000) ∧
      ∀ i : CycleIn, s.proximity_state = 0 → i.busy = false → i.prox % 256 ≠ 0 →
        (main_cycle s i).proximity_state ≠ 0 ∧
          (main_cycle s i).DESIRED_WDT_INTERVAL_MS = 10000 := by
  obtain ⟨-, -, i3, i4⟩ := reachable_inv p c0 c1 m s hr
  refine ⟨fun h => (i3 h).1, i4, fun i h0 hb hx => ?_⟩
  have ha : runs_active s i = true := by simp [runs_active, hb, hx]
  obtain ⟨m1, -, -, -, m5, -, -⟩ := main_cycle_active s i ha
  have hc : ¬ counted s.soft_counter s.lgest (i.decoded % 4294967296) > 100 := by
    rw [(i3 h0).2]
    unfold counted
    split <;> split <;> omega
  rw [if_neg hc] at m1 m5
  rw [if_pos h0] at m1
  exact ⟨by rw [m1]; exact hx, m5⟩

/-- C10, instance: the first iteration from the loop-entry state, with
proximity active, ends Active with the interval 10000. -/
theorem power_interval_correspondence_witness :
    Reachable (boot 1000 0 1000 0) (boot 1000 0 1000 0) ∧
      (main_cycle (boot 1000 0 1000 0) (cycle_in true false 1 0)).proximity_state ≠ 0 ∧
      (main_cycle (boot 1000 0 1000 0) (cycle_in true false 1 0)).DESIRED_WDT_INTERVAL_MS
        = 10000 :=
  ⟨.start,
    (power_interval_correspondence 1000 0 1000 0 (boot 1000 0 1000 0) .start).2.2
      (cycle_in true false 1 0) rfl rfl (by decide)⟩

/-- C8 as stated fails.  From the loop-entry state with an exact oscillator,
two iterations in which the watchdog interrupt is taken, the second one seeing
proximity active, end with the desired interval 10000, a wake pending, the
match at 4000 and the stored count 4000 (computed for 100000).  The next
`wdt_trigger` programs 8000 = 4000 + 4000, where the count for the interval in
force, 10000, is 400 and would give 4400. -/
theorem stale_ticks_counterexample :
    (run_cycles (boot 1000 0 1000 0)
        [cycle_in true false 0 0, cycle_in true false 1 0]).DESIRED_WDT_INTERVAL_MS = 10000 ∧
      (run_cycles (boot 1000 0 1000 0)
        [cycle_in true false 0 0, cycle_in true false 1 0]).flag = true ∧
      (run_cycles (boot 1000 0 1000 0)
        [cycle_in true false 0 0, cycle_in true false 1 0]).wdt_match = 4000 ∧
      (wdt_trigger 0 ilo_nominal (run_cycles (boot 1000 0 1000 0)
        [cycle_in true false 0 0, cycle_in true false 1 0])).wdt_match = 8000 ∧
      (4000 + ilo_nominal 10000 % 4294967296) % 65536 = 4400 := by
  decide

/-- When no wake is pending at the first `wdt_trigger` call after the switch,
that call programs nothing: from the loop-entry state, a first iteration
without the watchdog interrupt that sees proximity active switches to 10000;
the next call leaves the match at 0, and the call after it, with a wake
pending, programs 400, the count for 10000. -/
theorem fresh_ticks_when_no_wake_example :
    (run_cycles (boot 1000 0 1000 0)
        [cycle_in false false 1 0]).DESIRED_WDT_INTERVAL_MS = 10000 ∧
      (run_cycles (boot 1000 0 1000 0) [cycle_in false false 1 0]).flag = false ∧
      (wdt_trigger 0 ilo_nominal
        (run_cycles (boot 1000 0 1000 0) [cycle_in false false 1 0])).wdt_match = 0 ∧
      (run_cycles (boot 1000 0 1000 0)
        [cycle_in false false 1 0, cycle_in true false 0 0]).flag = true ∧
      (wdt_trigger 0 ilo_nominal (run_cycles (boot 1000 0 1000 0)
        [cycle_in false false 1 0, cycle_in true false 0 0])).wdt_match = 400 := by
  decide

/-- C8, amended. Every `wdt_trigger` call stores the count compensated for the
desired interval in force at that call, after it has dealt with the match.  A
call at which a wake is pending programs the old match plus the count stored
by the previous call, which was compensated for the interval in force at that
previous call, whatever the loop body has assigned to the desired interval
since; a call at which no wake is pending programs no match.  So after the
loop body switches the interval, a match programmed by the first call that
follows is computed from the ticks of the previous interval, and a match
programmed by the second call that follows from the ticks of the new one.
Here `main_cycle s i` is an iteration (its `wdt_trigger` call runs with the
interval of `s`, its body may switch it), `j` the iteration after it, and
`r`, `c` the oscillator readings of the call under consideration. -/
theorem wake_ticks_lag (s : Sys) (i j : CycleIn) (r : Nat) (c : Nat → Nat) :
    (main_cycle s i).ilo_compensated_counts =
        i.ilo_counts s.DESIRED_WDT_INTERVAL_MS % 4294967296 ∧
      (wdt_trigger r c (main_cycle s i)).wdt_match =
        (if (main_cycle s i).flag then
          ((main_cycle s i).wdt_match + i.ilo_counts s.DESIRED_WDT_INTERVAL_MS % 4294967296)
            % 65536
         else (main_cycle s i).wdt_match) ∧
      (wdt_trigger r c { main_cycle s i with log := [] }).log.filter is_set_match =
        (if (main_cycle s i).flag then
          [Call.WDT_SetMatch (((main_cycle s i).wdt_match +
            i.ilo_counts s.DESIRED_WDT_INTERVAL_MS % 4294967296) % 65536)]
         else []) ∧
      (wdt_trigger r c (main_cycle s i)).ilo_compensated_counts =
        c (main_cycle s i).DESIRED_WDT_INTERVAL_MS % 4294967296 ∧
      (wdt_trigger r c (main_cycle (main_cycle s i) j)).wdt_match =
        (if (main_cycle (main_cycle s i) j).flag then
          ((main_cycle (main_cycle s i) j).wdt_match +
            j.ilo_counts (main_cycle s i).DESIRED_WDT_INTERVAL_MS % 4294967296) % 65536
         else (main_cycle (main_cycle s i) j).wdt_match) := by
  obtain ⟨-, -, w3⟩ := main_cycle_wdt s i
  obtain ⟨-, -, v3⟩ := main_cycle_wdt (main_cycle s i) j
  refine ⟨w3, ?_, ?_, ?_, ?_⟩
  · rw [wdt_trigger_eq, ← w3]
  · rw [wdt_trigger_eq, ← w3]
    cases hf : (main_cycle s i).flag <;>
      simp [List.filter_append, List.filter_replicate, is_set_match]
  · rw [wdt_trigger_eq]
  · rw [wdt_trigger_eq, ← v3]

/-! ## Call traces and actuator frame of one iteration -/

theorem main_cycle_eq_woken (s : Sys) (i : CycleIn) :
    main_cycle s i = loop_body i (woken s i) := rfl

/-- The wake-timer part of an iteration, field by field. -/
theorem woken_eq (s : Sys) (i : CycleIn) :
    woken s i =
      { s with
        flag := i.wdt_irq
        wdt_match := if s.flag then (s.wdt_match + s.ilo_compensated_counts) % 65536 else s.wdt_match
        ilo_cycles := i.ilo_counts s.DESIRED_WDT_INTERVAL_MS % 4294967296
        ilo_compensated_counts := i.ilo_counts s.DESIRED_WDT_INTERVAL_MS % 4294967296
        log := s.log ++
          (if s.flag then [Call.WDT_SetMatch ((s.wdt_match + s.ilo_compensated_counts) % 65536)] else []) ++
          [Call.IloStartMeasurement] ++
          List.replicate (i.ilo_retries + 1) (Call.IloCompensate s.DESIRED_WDT_INTERVAL_MS) ++
          [Call.IloStopMeasurement, Call.Delay 5, Call.CpuEnterDeepSleep] ++
          (if i.wdt_irq then [Call.WDT_ClearInterrupt] else []) } := by
  unfold woken
  rw [wdt_trigger_eq]
  cases hq : i.wdt_irq <;> simp [wdt_isr, emit]

/-- The wake-timer part issues no call on which `p` holds, for any class `p`
of calls that excludes the watchdog, oscillator, delay and sleep calls. -/
theorem woken_filter (p : Call → Bool) (s : Sys) (i : CycleIn)
    (h1 : ∀ v, p (Call.WDT_SetMatch v) = false) (h2 : p Call.IloStartMeasurement = false)
    (h3 : ∀ d, p (Call.IloCompensate d) = false) (h4 : p Call.IloStopMeasurement = false)
    (h5 : ∀ n, p (Call.Delay n) = false) (h6 : p Call.CpuEnterDeepSleep = false)
    (h7 : p Call.WDT_ClearInterrupt = false) :
    (woken s i).log.filter p = s.log.filter p := by
  rw [woken_eq]
  cases hq : i.wdt_irq <;> cases hf : s.flag <;>
    simp [List.filter_append, List.filter_replicate, List.filter_cons, h1, h2, h3, h4, h5, h6, h7]

/-- The dispatch switch issues no call on which `p` holds, for any class `p`
of calls that excludes the UART, brightness and LED3 calls. -/
theorem gesture_switch_filter (p : Call → Bool) (t : Sys)
    (h1 : ∀ m, p (Call.UART_PutString m) = false) (h2 : p Call.toggle_pwm = false)
    (h3 : ∀ n, p (Call.incr_brightness n) = false) (h4 : ∀ n, p (Call.decr_brightness n) = false)
    (h5 : p Call.GPIO_Inv = false) :
    (gesture_switch t).log.filter p = t.log.filter p := by
  unfold gesture_switch
  simp only [apply_ite Sys.log, apply_ite (List.filter p), toggle_pwm_frame,
    incr_brightness_frame, decr_brightness_frame, emit, List.filter_append, List.filter_cons,
    List.filter_nil, h1, h2, h3, h4, h5, List.append_nil, ite_self, Bool.false_eq_true, if_false]


theorem dispatched_filter (p : Call → Bool) (i : CycleIn) (t : Sys)
    (h1 : ∀ m, p (Call.UART_PutString m) = false) (h2 : p Call.toggle_pwm = false)
    (h3 : ∀ n, p (Call.incr_brightness n) = false) (h4 : ∀ n, p (Call.decr_brightness n) = false)
    (h5 : p Call.GPIO_Inv = false) :
    (dispatched i t).log.filter p = t.log.filter p ++
      [Call.InitializeWidgetBaseline .PROXIMITY0, Call.ScanSlots .TOUCHPAD0,
       Call.IncrementGestureTimestamp, Call.ProcessWidget .TOUCHPAD0,
       Call.DecodeWidgetGestures .TOUCHPAD0].filter p := by
  unfold dispatched
  split
  · rw [gesture_switch_filter p _ h1 h2 h3 h4 h5]
    simp only [scanned, List.filter_append]
  · simp only [scanned, List.filter_append]

theorem probed_log (i : CycleIn) (t : Sys) :
    (probed i t).log = t.log ++ [Call.IsBusy] ++
      (if t.proximity_state = 0 then
        [Call.ScanSlots .PROXIMITY0, Call.ProcessWidget .PROXIMITY0,
         Call.IsProximitySensorActive .PROXIMITY0]
       else []) := by
  unfold probed
  split <;> simp [emit]

theorem probed_active_iff (i : CycleIn) (t : Sys) (hb : i.busy = false) :
    (probed i t).proximity_state ≠ 0 ↔ runs_active t i = true := by
  rw [(probed_frame i t).1]
  unfold runs_active
  by_cases hp : t.proximity_state = 0 <;> simp [hb, hp]

/-- The calls of one iteration on which `p` holds are those of the sensing
trace, for any class `p` of calls that excludes the wake-timer calls and the
calls of the dispatch switch. -/
theorem main_cycle_filter (p : Call → Bool) (s : Sys) (i : CycleIn)
    (w1 : ∀ v, p (Call.WDT_SetMatch v) = false) (w2 : p Call.IloStartMeasurement = false)
    (w3 : ∀ d, p (Call.IloCompensate d) = false) (w4 : p Call.IloStopMeasurement = false)
    (w5 : ∀ n, p (Call.Delay n) = false) (w6 : p Call.CpuEnterDeepSleep = false)
    (w7 : p Call.WDT_ClearInterrupt = false)
    (h1 : ∀ m, p (Call.UART_PutString m) = false) (h2 : p Call.toggle_pwm = false)
    (h3 : ∀ n, p (Call.incr_brightness n) = false) (h4 : ∀ n, p (Call.decr_brightness n) = false)
    (h5 : p Call.GPIO_Inv = false) :
    (main_cycle s i).log.filter p = s.log.filter p ++ (capsense_trace s i).filter p := by
  have hw := woken_filter p s i w1 w2 w3 w4 w5 w6 w7
  have hps : (woken s i).proximity_state = s.proximity_state := by rw [woken_eq]
  have hra : runs_active (woken s i) i = runs_active s i := by
    unfold runs_active; rw [hps]
  rw [main_cycle_eq_woken]
  unfold capsense_trace
  cases hb : i.busy
  · rw [loop_body_not_busy _ i hb]
    simp only [Bool.false_eq_true, if_false]
    by_cases ha : runs_active s i = true
    · have hq : (probed i (woken s i)).proximity_state ≠ 0 :=
        (probed_active_iff i _ hb).2 (by rw [hra]; exact ha)
      rw [if_pos hq, active_branch_eq]
      have hd := dispatched_filter p i (probed i (woken s i)) h1 h2 h3 h4 h5
      rw [probed_log, hps] at hd
      simp only [List.filter_append] at hd
      split <;> simp only [emit, List.filter_append, hd, hw, ha, if_true, List.append_assoc]
    · have hq : ¬ (probed i (woken s i)).proximity_state ≠ 0 := fun h =>
        ha (by rw [← hra]; exact (probed_active_iff i _ hb).1 h)
      rw [if_neg hq]
      simp only [emit, probed_log, hps, List.filter_append, hw, ha, Bool.false_eq_true, if_false,
        List.filter_nil, List.append_nil, List.append_assoc]
  · rw [loop_body_busy _ i hb]
    simp only [if_true, emit, List.filter_append, hw]

theorem toggle_pwm_congr (t s : Sys) (h1 : t.state = s.state) (h2 : t.bright = s.bright) :
    (toggle_pwm t).state = (toggle_pwm s).state ∧
      (toggle_pwm t).compare0 = (toggle_pwm s).compare0 ∧
      (toggle_pwm t).compare1 = (toggle_pwm s).compare1 := by
  unfold toggle_pwm
  simp only [h1, h2]
  split <;> simp

theorem incr_brightness_congr (n : Nat) (t s : Sys) (h1 : t.state = s.state)
    (h2 : t.compare0 = s.compare0) (h3 : t.compare1 = s.compare1) (h4 : t.period0 = s.period0) :
    (incr_brightness n t).state = (incr_brightness n s).state ∧
      (incr_brightness n t).compare0 = (incr_brightness n s).compare0 ∧
      (incr_brightness n t).compare1 = (incr_brightness n s).compare1 := by
  unfold incr_brightness
  simp only [h2, h4]
  split <;> simp [h1, h2, h3]

theorem decr_brightness_congr (n : Nat) (t s : Sys) (h1 : t.state = s.state)
    (h2 : t.compare0 = s.compare0) (h3 : t.compare1 = s.compare1) :
    (decr_brightness n t).state = (decr_brightness n s).state ∧
      (decr_brightness n t).compare0 = (decr_brightness n s).compare0 ∧
      (decr_brightness n t).compare1 = (decr_brightness n s).compare1 := by
  unfold decr_brightness
  simp [h1, h2, h3]

/-- The dispatch switch against the table: on a state whose `bright` is 100,
the switch leaves the on/off flag and the two compare registers as the table
prescribes for the code in `gest`. -/
theorem gesture_switch_table (t s : Sys) (hb : t.bright = 100) (h1 : t.state = s.state)
    (h2 : t.compare0 = s.compare0) (h3 : t.compare1 = s.compare1) (h4 : t.period0 = s.period0)
    (h5 : s.bright = 100) :
    (gesture_switch t).state = (table_effect t.gest s).state ∧
      (gesture_switch t).compare0 = (table_effect t.gest s).compare0 ∧
      (gesture_switch t).compare1 = (table_effect t.gest s).compare1 := by
  have ht : ∀ X : Sys, X.state = s.state → X.bright = 100 →
      (toggle_pwm X).state = (toggle_pwm s).state ∧
      (toggle_pwm X).compare0 = (toggle_pwm s).compare0 ∧
      (toggle_pwm X).compare1 = (toggle_pwm s).compare1 :=
    fun X a b => toggle_pwm_congr X s a (b.trans h5.symm)
  have hi : ∀ X : Sys, X.state = s.state → X.compare0 = s.compare0 →
      X.compare1 = s.compare1 → X.period0 = s.period0 →
      (incr_brightness 100 X).state = (incr_brightness 100 s).state ∧
      (incr_brightness 100 X).compare0 = (incr_brightness 100 s).compare0 ∧
      (incr_brightness 100 X).compare1 = (incr_brightness 100 s).compare1 :=
    fun X a b c d => incr_brightness_congr 100 X s a b c d
  have hd : ∀ X : Sys, X.state = s.state → X.compare0 = s.compare0 →
      X.compare1 = s.compare1 →
      (decr_brightness 100 X).state = (decr_brightness 100 s).state ∧
      (decr_brightness 100 X).compare0 = (decr_brightness 100 s).compare0 ∧
      (decr_brightness 100 X).compare1 = (decr_brightness 100 s).compare1 :=
    fun X a b c => decr_brightness_congr 100 X s a b c
  by_cases hm : t.gest ∈ table_codes
  · simp only [table_codes, List.mem_cons, List.mem_singleton, List.not_mem_nil, or_false] at hm
    rcases hm with h | h | h | h | h | h | h | h | h | h | h | h | h <;>
      simp [gesture_switch, table_effect, table_action, h, hb, emit, ht, hi, hd, h1, h2, h3, h4,
        SINGLE_CLICK, DOUBLE_CLICK, SCROLL_RIGHT,
        SCROLL_LEFT, SCROLL_UP, SCROLL_DOWN, FLICK_UP, FLICK_DOWN, FLICK_RIGHT, FLICK_LEFT,
        TWO_FINGER_ZOOM_IN, TWO_FINGER_ZOOM_OUT, TWO_FINGER_CLICK]
  · simp only [table_codes, List.mem_cons, List.mem_singleton, List.not_mem_nil, or_false,
      not_or] at hm
    obtain ⟨n1, n2, n3, n4, n5, n6, n7, n8, n9, n10, n11, n12, n13⟩ := hm
    simp [gesture_switch, table_effect, table_action, n1, n2, n3, n4, n5, n6, n7, n8, n9, n10,
      n11, n12, n13, emit, h1, h2, h3]

/-- The state in which the dispatch switch runs agrees with the state at the
start of the iteration on the actuator fields, `bright` and `lgest`, and holds
the decoded code in `gest`. -/
theorem staged_frame (s : Sys) (i : CycleIn) :
    (scanned i (probed i (woken s i))).state = s.state ∧
    (scanned i (probed i (woken s i))).compare0 = s.compare0 ∧
    (scanned i (probed i (woken s i))).compare1 = s.compare1 ∧
    (scanned i (probed i (woken s i))).period0 = s.period0 ∧
    (scanned i (probed i (woken s i))).bright = s.bright ∧
    (scanned i (probed i (woken s i))).lgest = s.lgest ∧
    (scanned i (probed i (woken s i))).gest = i.decoded % 4294967296 := by
  rw [woken_eq]
  unfold scanned probed
  dsimp only
  split <;> simp [emit]

/-- The actuator fields after an iteration: those the dispatch switch leaves
when it runs, and the ones the iteration started with when it does not. -/
theorem main_cycle_actuator (s : Sys) (i : CycleIn) :
    (main_cycle s i).state =
      (if runs_active s i = true ∧ i.decoded % 4294967296 ≠ s.lgest ∧
          i.decoded % 4294967296 ≠ 0 then
        gesture_switch (scanned i (probed i (woken s i))) else s).state ∧
    (main_cycle s i).compare0 =
      (if runs_active s i = true ∧ i.decoded % 4294967296 ≠ s.lgest ∧
          i.decoded % 4294967296 ≠ 0 then
        gesture_switch (scanned i (probed i (woken s i))) else s).compare0 ∧
    (main_cycle s i).compare1 =
      (if runs_active s i = true ∧ i.decoded % 4294967296 ≠ s.lgest ∧
          i.decoded % 4294967296 ≠ 0 then
        gesture_switch (scanned i (probed i (woken s i))) else s).compare1 := by
  obtain ⟨f1, f2, f3, -, -, f6, -⟩ := staged_frame s i
  have hps : (woken s i).proximity_state = s.proximity_state := by rw [woken_eq]
  have hra : runs_active (woken s i) i = runs_active s i := by
    unfold runs_active; rw [hps]
  have hw : (woken s i).state = s.state ∧ (woken s i).compare0 = s.compare0 ∧
      (woken s i).compare1 = s.compare1 := by rw [woken_eq]; exact ⟨rfl, rfl, rfl⟩
  have hp : (probed i (woken s i)).state = s.state ∧
      (probed i (woken s i)).compare0 = s.compare0 ∧
      (probed i (woken s i)).compare1 = s.compare1 ∧
      (probed i (woken s i)).lgest = s.lgest := by
    rw [woken_eq]; unfold probed; dsimp only; split <;> simp [emit]
  have hab : ∀ P : Sys, (active_branch i P).state = (dispatched i P).state ∧
      (active_branch i P).compare0 = (dispatched i P).compare0 ∧
      (active_branch i P).compare1 = (dispatched i P).compare1 := by
    intro P
    rw [active_branch_eq]
    split <;> exact ⟨rfl, rfl, rfl⟩
  rw [main_cycle_eq_woken]
  cases hb : i.busy
  · rw [loop_body_not_busy _ i hb]
    by_cases ha : runs_active s i = true
    · have hq : (probed i (woken s i)).proximity_state ≠ 0 :=
        (probed_active_iff i _ hb).2 (by rw [hra]; exact ha)
      rw [if_pos hq]
      obtain ⟨a1, a2, a3⟩ := hab (probed i (woken s i))
      by_cases hd : i.decoded % 4294967296 ≠ s.lgest ∧ i.decoded % 4294967296 ≠ 0
      · have hdis : dispatched i (probed i (woken s i)) =
            gesture_switch (scanned i (probed i (woken s i))) := by
          unfold dispatched; rw [hp.2.2.2, if_pos hd]
        rw [if_pos ⟨ha, hd⟩, ← hdis]
        exact ⟨a1, a2, a3⟩
      · have hdis : dispatched i (probed i (woken s i)) = scanned i (probed i (woken s i)) := by
          unfold dispatched; rw [hp.2.2.2, if_neg hd]
        rw [if_neg (fun h => hd h.2)]
        rw [hdis] at a1 a2 a3
        exact ⟨a1.trans f1, a2.trans f2, a3.trans f3⟩
    · have hq : ¬ (probed i (woken s i)).proximity_state ≠ 0 := fun h =>
        ha (by rw [← hra]; exact (probed_active_iff i _ hb).1 h)
      rw [if_neg hq, if_neg (fun h => ha h.1)]
      exact ⟨hp.1, hp.2.1, hp.2.2.1⟩
  · rw [loop_body_busy _ i hb]
    have ha : ¬ runs_active s i = true := by simp [runs_active, hb]
    rw [if_neg (fun h => ha h.1)]
    exact hw

/-! ## Dispatch table -/

theorem reachable_bright (p c0 c1 m : Nat) (s : Sys) (h : Reachable (boot p c0 c1 m) s) :
    s.bright = 100 := by
  induction h with
  | start => rfl
  | @cycle s i _ ih =>
    cases ha : runs_active s i
    · rw [(main_cycle_inactive s i ha).2.2.2.2.2.1]; exact ih
    · rw [(main_cycle_active s i ha).2.2.2.2.2.1]; exact ih

theorem pwm_calls_of_actions (l : List Call) :
    l.filter is_pwm_call = (actions l).filter is_pwm_call := by
  unfold actions
  rw [List.filter_filter]
  congr 1
  funext c
  cases c <;> rfl

/-- The brightness calls of the dispatch switch against the table, for the
step 100. -/
theorem switch_actions_table (g : Nat) :
    (switch_actions 100 g).filter is_pwm_call = table_calls g := by
  by_cases hm : g ∈ table_codes
  · simp only [table_codes, List.mem_cons, List.mem_singleton, List.not_mem_nil, or_false] at hm
    rcases hm with h | h | h | h | h | h | h | h | h | h | h | h | h <;> subst h <;>
      simp [switch_actions, gesture_switch, table_calls, table_action, emit, boot, actions,
        is_action, is_pwm_call, toggle_pwm_frame, incr_brightness_frame, decr_brightness_frame,
        SINGLE_CLICK, DOUBLE_CLICK, SCROLL_RIGHT,
        SCROLL_LEFT, SCROLL_UP, SCROLL_DOWN, FLICK_UP, FLICK_DOWN, FLICK_RIGHT, FLICK_LEFT,
        TWO_FINGER_ZOOM_IN, TWO_FINGER_ZOOM_OUT, TWO_FINGER_CLICK]
  · simp only [table_codes, List.mem_cons, List.mem_singleton, List.not_mem_nil, or_false,
      not_or] at hm
    obtain ⟨n1, n2, n3, n4, n5, n6, n7, n8, n9, n10, n11, n12, n13⟩ := hm
    simp [switch_actions, gesture_switch, table_calls, table_action, n1, n2, n3, n4, n5, n6, n7,
      n8, n9, n10, n11, n12, n13, emit, boot, actions, is_action, is_pwm_call]

/-- C11. In a reachable state, an iteration that runs the Active branch and
decodes a non-zero code `g` different from `lgest` leaves the on/off flag,
compare0 and compare1 as the dispatch table prescribes (single and double
click: `toggle_pwm`; scroll up/right, flick up/right, zoom in:
`incr_brightness 100`; scroll down/left, flick down/left, zoom out:
`decr_brightness 100`; two-finger click and every other code: unchanged),
issues exactly the brightness call of the table, once, and sets `lgest` to
`g`. -/
theorem dispatch_table (p c0 c1 m : Nat) (s : Sys) (hr : Reachable (boot p c0 c1 m) s)
    (i : CycleIn) (ha : runs_active s i = true)
    (hnew : i.decoded % 4294967296 ≠ s.lgest) (hnz : i.decoded % 4294967296 ≠ 0) :
    (main_cycle s i).state = (table_effect (i.decoded % 4294967296) s).state ∧
      (main_cycle s i).compare0 = (table_effect (i.decoded % 4294967296) s).compare0 ∧
      (main_cycle s i).compare1 = (table_effect (i.decoded % 4294967296) s).compare1 ∧
      (cycle_calls s i).filter is_pwm_call = table_calls (i.decoded % 4294967296) ∧
      (main_cycle s i).lgest = i.decoded % 4294967296 := by
  have hb := reachable_bright p c0 c1 m s hr
  obtain ⟨f1, f2, f3, f4, f5, -, f7⟩ := staged_frame s i
  obtain ⟨a1, a2, a3⟩ := main_cycle_actuator s i
  rw [if_pos ⟨ha, hnew, hnz⟩] at a1 a2 a3
  obtain ⟨g1, g2, g3⟩ := gesture_switch_table (scanned i (probed i (woken s i))) s
    (f5.trans hb) f1 f2 f3 f4 hb
  rw [f7] at g1 g2 g3
  refine ⟨a1.trans g1, a2.trans g2, a3.trans g3, ?_, (main_cycle_active s i ha).2.2.2.1⟩
  have h' : runs_active { s with log := [] } i = true := ha
  have h2 : actions (main_cycle { s with log := [] } i).log = actions [] ++
      (if i.decoded % 4294967296 ≠ s.lgest ∧ i.decoded % 4294967296 ≠ 0 then
        switch_actions s.bright (i.decoded % 4294967296) else []) :=
    (main_cycle_active { s with log := [] } i h').2.2.2.2.2.2
  rw [if_pos ⟨hnew, hnz⟩] at h2
  unfold cycle_calls
  rw [pwm_calls_of_actions, h2, hb]
  simp only [actions, List.filter_nil, List.nil_append]
  exact switch_actions_table _

/-- C11, instance: the first iteration from the loop-entry state (period
1000), proximity active, decoding SCROLL_UP: one `incr_brightness 100`,
compare0 = 101, flag still off, `lgest` = SCROLL_UP. -/
theorem dispatch_table_witness :
    (main_cycle (boot 1000 0 1000 0) (cycle_in true false 1 SCROLL_UP)).compare0 = 101 ∧
      (main_cycle (boot 1000 0 1000 0) (cycle_in true false 1 SCROLL_UP)).state = 0 ∧
      (cycle_calls (boot 1000 0 1000 0) (cycle_in true false 1 SCROLL_UP)).filter is_pwm_call =
        [Call.incr_brightness 100] ∧
      (main_cycle (boot 1000 0 1000 0) (cycle_in true false 1 SCROLL_UP)).lgest = SCROLL_UP := by
  have h := dispatch_table 1000 0 1000 0 (boot 1000 0 1000 0) .start
    (cycle_in true false 1 SCROLL_UP) (by decide) (by decide) (by decide)
  exact ⟨h.2.1.trans (by decide), h.1.trans (by decide), h.2.2.2.1.trans (by decide),
    h.2.2.2.2.trans (by decide)⟩

/-! ## Busy gate, Idle iterations, baseline calls -/

/-- The sensing-middleware calls of one iteration are its sensing trace. -/
theorem cycle_capsense_calls (s : Sys) (i : CycleIn) :
    (cycle_calls s i).filter is_capsense_call = capsense_trace s i := by
  have h := main_cycle_filter is_capsense_call { s with log := [] } i
    (fun _ => rfl) rfl (fun _ => rfl) rfl (fun _ => rfl) rfl rfl
    (fun _ => rfl) rfl (fun _ => rfl) (fun _ => rfl) rfl
  have ht : capsense_trace { s with log := [] } i = capsense_trace s i := rfl
  unfold cycle_calls
  rw [h, ht]
  simp only [List.filter_nil, List.nil_append]
  unfold capsense_trace
  split
  · rfl
  · split <;> split <;> rfl

/-- The baseline calls of one iteration are those of its sensing trace. -/
theorem cycle_baseline_calls (s : Sys) (i : CycleIn) :
    (cycle_calls s i).filter is_baseline_call =
      (capsense_trace s i).filter is_baseline_call := by
  have h := main_cycle_filter is_baseline_call { s with log := [] } i
    (fun _ => rfl) rfl (fun _ => rfl) rfl (fun _ => rfl) rfl rfl
    (fun _ => rfl) rfl (fun _ => rfl) (fun _ => rfl) rfl
  have ht : capsense_trace { s with log := [] } i = capsense_trace s i := rfl
  unfold cycle_calls
  rw [h, ht]
  simp only [List.filter_nil, List.nil_append]

theorem cycle_actions_inactive (s : Sys) (i : CycleIn) (h : runs_active s i = false) :
    actions (cycle_calls s i) = [] := by
  have h' : runs_active { s with log := [] } i = false := h
  exact (main_cycle_inactive { s with log := [] } i h').2.2.2.2.2.2

/-- C12. In an iteration in which the middleware reports busy, the scan
statement only issues the busy query; the scheduler variables
(`proximity_state`, `soft_counter`, `gest`, `lgest`,
`DESIRED_WDT_INTERVAL_MS`) and the actuator state (on/off flag, compare0,
compare1) are unchanged by the iteration; the calls of the iteration are those
of the wake-timer part followed by the busy query, so the only middleware call
is the busy query (no scan, process, decode, timestamp or baseline call) and
there is no actuator call. -/
theorem busy_gate (s : Sys) (i : CycleIn) (hb : i.busy = true) :
    loop_body i (woken s i) = emit Call.IsBusy (woken s i) ∧
      (main_cycle s i).proximity_state = s.proximity_state ∧
      (main_cycle s i).soft_counter = s.soft_counter ∧
      (main_cycle s i).gest = s.gest ∧
      (main_cycle s i).lgest = s.lgest ∧
      (main_cycle s i).DESIRED_WDT_INTERVAL_MS = s.DESIRED_WDT_INTERVAL_MS ∧
      (main_cycle s i).state = s.state ∧
      (main_cycle s i).compare0 = s.compare0 ∧
      (main_cycle s i).compare1 = s.compare1 ∧
      cycle_calls s i = (woken { s with log := [] } i).log ++ [Call.IsBusy] ∧
      (cycle_calls s i).filter is_capsense_call = [Call.IsBusy] ∧
      actions (cycle_calls s i) = [] := by
  have ha : runs_active s i = false := by simp [runs_active, hb]
  obtain ⟨m1, m2, m3, m4, m5, -, -⟩ := main_cycle_inactive s i ha
  obtain ⟨a1, a2, a3⟩ := main_cycle_actuator s i
  have hn : ¬ (runs_active s i = true ∧ i.decoded % 4294967296 ≠ s.lgest ∧
      i.decoded % 4294967296 ≠ 0) := fun h => by rw [ha] at h; exact absurd h.1 (by decide)
  rw [if_neg hn] at a1 a2 a3
  refine ⟨loop_body_busy _ i hb, m1, m2, m3, m4, m5, a1, a2, a3, ?_, ?_,
    cycle_actions_inactive s i ha⟩
  · unfold cycle_calls
    rw [main_cycle_eq_woken, loop_body_busy _ i hb]
    rfl
  · rw [cycle_capsense_calls]
    unfold capsense_trace
    rw [if_pos hb]

/-- C12, instance: a busy first iteration from the loop-entry state, with the
watchdog interrupt taken: the calls are those of `wdt_trigger`, the interrupt
acknowledge and the busy query, and the state stays Idle. -/
theorem busy_gate_witness :
    cycle_calls (boot 1000 0 1000 0) (cycle_in true true 1 1) =
        [Call.IloStartMeasurement, Call.IloCompensate 100000, Call.IloStopMeasurement,
         Call.Delay 5, Call.CpuEnterDeepSleep, Call.WDT_ClearInterrupt, Call.IsBusy] ∧
      (main_cycle (boot 1000 0 1000 0) (cycle_in true true 1 1)).proximity_state = 0 :=
  ⟨(busy_gate (boot 1000 0 1000 0) (cycle_in true true 1 1) rfl).2.2.2.2.2.2.2.2.2.1.trans
      (by decide),
    (busy_gate (boot 1000 0 1000 0) (cycle_in true true 1 1) rfl).2.1⟩

/-- One non-busy iteration that starts Idle and reads proximity inactive. -/
theorem idle_cycle (s : Sys) (i : CycleIn) (h0 : s.proximity_state = 0)
    (hb : i.busy = false) (hx : i.prox % 256 = 0) :
    (main_cycle s i).proximity_state = 0 ∧
      (main_cycle s i).soft_counter = s.soft_counter ∧
      (main_cycle s i).gest = s.gest ∧
      (main_cycle s i).lgest = s.lgest ∧
      (main_cycle s i).DESIRED_WDT_INTERVAL_MS = s.DESIRED_WDT_INTERVAL_MS ∧
      (main_cycle s i).state = s.state ∧
      (main_cycle s i).compare0 = s.compare0 ∧
      (main_cycle s i).compare1 = s.compare1 ∧
      (cycle_calls s i).filter is_capsense_call =
        [Call.IsBusy, Call.ScanSlots .PROXIMITY0, Call.ProcessWidget .PROXIMITY0,
         Call.IsProximitySensorActive .PROXIMITY0, Call.RunTuner] ∧
      actions (cycle_calls s i) = [] := by
  have ha : runs_active s i = false := by simp [runs_active, hb, h0, hx]
  obtain ⟨m1, m2, m3, m4, m5, -, -⟩ := main_cycle_inactive s i ha
  obtain ⟨a1, a2, a3⟩ := main_cycle_actuator s i
  have hn : ¬ (runs_active s i = true ∧ i.decoded % 4294967296 ≠ s.lgest ∧
      i.decoded % 4294967296 ≠ 0) := fun h => by rw [ha] at h; exact absurd h.1 (by decide)
  rw [if_neg hn] at a1 a2 a3
  refine ⟨m1.trans h0, m2, m3, m4, m5, a1, a2, a3, ?_, cycle_actions_inactive s i ha⟩
  rw [cycle_capsense_calls]
  unfold capsense_trace
  simp [hb, h0, ha]

/-- C13. Over any number of consecutive non-busy iterations that start Idle
and in which the proximity sensor reports inactive, the state stays Idle with
`soft_counter`, `gest`, `lgest`, the desired wake interval and the actuator
state unchanged, and each iteration issues, of the middleware calls, only the
busy query, the scan, process and status query of the proximity widget and the
tuner call (no touchpad scan, no timestamp increment, no decode, no baseline
call), and no actuator call. -/
theorem idle_stays_idle (s : Sys) (is : List CycleIn) (h0 : s.proximity_state = 0)
    (hz : ∀ i ∈ is, i.busy = false ∧ i.prox % 256 = 0) :
    (run_cycles s is).proximity_state = 0 ∧
      (run_cycles s is).soft_counter = s.soft_counter ∧
      (run_cycles s is).gest = s.gest ∧
      (run_cycles s is).lgest = s.lgest ∧
      (run_cycles s is).DESIRED_WDT_INTERVAL_MS = s.DESIRED_WDT_INTERVAL_MS ∧
      (run_cycles s is).state = s.state ∧
      (run_cycles s is).compare0 = s.compare0 ∧
      (run_cycles s is).compare1 = s.compare1 ∧
      (run_calls s is).length = is.length ∧
      ∀ cs ∈ run_calls s is,
        cs.filter is_capsense_call =
          [Call.IsBusy, Call.ScanSlots .PROXIMITY0, Call.ProcessWidget .PROXIMITY0,
           Call.IsProximitySensorActive .PROXIMITY0, Call.RunTuner] ∧
        actions cs = [] := by
  induction is generalizing s with
  | nil =>
    refine ⟨h0, rfl, rfl, rfl, rfl, rfl, rfl, rfl, rfl, ?_⟩
    intro cs hcs
    simp [run_calls] at hcs
  | cons i is ih =>
    obtain ⟨hb, hx⟩ := hz i (List.mem_cons_self i is)
    obtain ⟨c1, c2, c3, c4, c5, c6, c7, c8, c9, c10⟩ := idle_cycle s i h0 hb hx
    obtain ⟨r1, r2, r3, r4, r5, r6, r7, r8, r9, r10⟩ :=
      ih (main_cycle s i) c1 (fun j hj => hz j (List.mem_cons_of_mem i hj))
    refine ⟨r1, r2.trans c2, r3.trans c3, r4.trans c4, r5.trans c5, r6.trans c6, r7.trans c7,
      r8.trans c8, ?_, ?_⟩
    · simp only [run_calls, List.length_cons, r9]
    · intro cs hcs
      simp only [run_calls, List.mem_cons] at hcs
      rcases hcs with h | h
      · rw [h]; exact ⟨c9, c10⟩
      · exact r10 cs h

/-- C13, the scenario of the specification: five Idle iterations from the
loop-entry state with proximity inactive stay Idle. -/
theorem idle_stays_idle_witness :
    (run_cycles (boot 1000 0 1000 0) (List.replicate 5 (cycle_in true false 0 0))).proximity_state
        = 0 ∧
      (run_calls (boot 1000 0 1000 0) (List.replicate 5 (cycle_in true false 0 0))).length = 5 ∧
      ∀ cs ∈ run_calls (boot 1000 0 1000 0) (List.replicate 5 (cycle_in true false 0 0)),
        cs.filter is_capsense_call =
          [Call.IsBusy, Call.ScanSlots .PROXIMITY0, Call.ProcessWidget .PROXIMITY0,
           Call.IsProximitySensorActive .PROXIMITY0, Call.RunTuner] ∧
        actions cs = [] :=
  have h := idle_stays_idle (boot 1000 0 1000 0) (List.replicate 5 (cycle_in true false 0 0)) rfl
    (fun i hi => by rw [List.eq_of_mem_replicate hi]; exact ⟨rfl, rfl⟩)
  ⟨h.1, h.2.2.2.2.2.2.2.2.1.trans (by simp), h.2.2.2.2.2.2.2.2.2⟩

/-- C14 as stated fails: the iteration after the Idle-to-Active one starts
Active (`proximity_state = 1`), is not busy, and issues a baseline
re-initialisation; the call names the proximity widget, not the touchpad. -/
theorem baseline_on_approach_counterexample :
    (main_cycle (boot 1000 0 1000 0) (cycle_in true false 1 0)).proximity_state = 1 ∧
      (cycle_calls (main_cycle (boot 1000 0 1000 0) (cycle_in true false 1 0))
        (cycle_in true false 0 0)).filter is_baseline_call =
        [Call.InitializeWidgetBaseline .PROXIMITY0] := by
  decide

/-- C14, amended. The baseline re-initialisation call is issued exactly in
the iterations that run the Active branch (not busy, and either already Active
or Idle with proximity reporting active), once per such iteration, and it
names the proximity widget; an iteration that is busy or stays Idle issues
none. -/
theorem baseline_in_active_branch (s : Sys) (i : CycleIn) :
    (cycle_calls s i).filter is_baseline_call =
      (if runs_active s i then [Call.InitializeWidgetBaseline .PROXIMITY0] else []) := by
  rw [cycle_baseline_calls]
  unfold capsense_trace
  cases hb : i.busy
  · by_cases hp : s.proximity_state = 0 <;>
      cases ha : runs_active s i <;> simp [hp, is_baseline_call]
  · have ha : runs_active s i = false := by simp [runs_active, hb]
    simp [ha, is_baseline_call]

/-! ## On/off flag and compare0; gesture code constants -/

/-- C15 as stated fails: from the loop-entry state (flag off, compare0 = 0,
period 1000) one `incr_brightness 100` call reaches a state with the flag
still off and compare0 = 101. -/
theorem off_compare_counterexample :
    ActuatorReachable (boot 1000 0 1000 0) (incr_brightness 100 (boot 1000 0 1000 0)) ∧
      (incr_brightness 100 (boot 1000 0 1000 0)).state = 0 ∧
      (incr_brightness 100 (boot 1000 0 1000 0)).compare0 = 101 :=
  ⟨.incr 100 .start, by decide, by decide⟩

/-- C15, amended. In every actuator state reachable from the initial one
(flag off, compare0 = 0) by `toggle_pwm` and `decr_brightness` calls, and
`incr_brightness` calls made while the flag is on, compare0 is 0 whenever the
flag is off. -/
theorem off_compare_invariant (p c1 m : Nat) (s : Sys)
    (h : OnGuardedReachable (boot p 0 c1 m) s) (hoff : s.state = 0) : s.compare0 = 0 := by
  induction h with
  | start => rfl
  | @toggle t _ _ =>
    by_cases h0 : t.state = 0
    · simp [toggle_pwm, h0] at hoff
    · simp [toggle_pwm, h0]
  | @incr t inc _ hon _ =>
    rw [(incr_brightness_frame inc t).2.2.2.2.2.2.2.2.2.2.2.2.2.2.2.1] at hoff
    exact absurd hoff hon
  | @decr t dec _ ih =>
    have h0 := ih hoff
    unfold decr_brightness
    dsimp only
    rw [h0]
    split <;> simp

/-- C15, instance: toggle on, `incr_brightness 100` while on, toggle off:
the flag is off and compare0 is 0. -/
theorem off_compare_invariant_witness :
    (toggle_pwm (incr_brightness 100 (toggle_pwm (boot 1000 0 1000 0)))).state = 0 ∧
      (toggle_pwm (incr_brightness 100 (toggle_pwm (boot 1000 0 1000 0)))).compare0 = 0 :=
  ⟨by decide,
    off_compare_invariant 1000 1000 0 _
      (.toggle (.incr 100 (.toggle .start) (by decide))) (by decide)⟩

/-- C16, the code at the failing constant.  Three flick codes carry the
direction in bits 24-25 (`0x80 | (d << 24)`, d = 0 up, 2 right, 3 left) with
the numbering of the scroll codes (`0x10 | (d << 16)`, d = 0, 1, 2, 3), and
the thirteen table codes are pairwise distinct and below 2^32; but
`FLICK_DOWN`, written `0x010000080U`, is `0x80 | (1 << 28)`, not
`0x80 | (1 << 24)`.  The switch issues `decr_brightness` for the former and
no actuator call for the latter. -/
theorem flick_down_constant :
    FLICK_UP = 0x80 ||| (0 <<< 24) ∧ FLICK_RIGHT = 0x80 ||| (2 <<< 24) ∧
      FLICK_LEFT = 0x80 ||| (3 <<< 24) ∧
      SCROLL_UP = 0x10 ||| (0 <<< 16) ∧ SCROLL_DOWN = 0x10 ||| (1 <<< 16) ∧
      SCROLL_RIGHT = 0x10 ||| (2 <<< 16) ∧ SCROLL_LEFT = 0x10 ||| (3 <<< 16) ∧
      table_codes.Nodup ∧ (∀ g ∈ table_codes, g < 4294967296) ∧
      FLICK_DOWN = 0x80 ||| (1 <<< 28) ∧ FLICK_DOWN ≠ 0x80 ||| (1 <<< 24) ∧
      switch_actions 100 FLICK_DOWN = [Call.decr_brightness 100] ∧
      switch_actions 100 (0x80 ||| (1 <<< 24)) = [] := by
  decide

end Touchpad
